import Mathlib

/-!
# Verification of the csi-intel-rsd driver against its specification

Shallow embedding of the volume state machine and orchestration pipelines of
the intel/csi-intel-rsd CSI driver (Go).  Each definition mirrors one Go
function from the source; external collaborators (the RSD Redfish transport,
the local mounter, the NVMe fabric connector) are modelled as oracle
environments whose fields give the result of each remote/OS call, and the
side effects the driver issues are collected in an explicit trace.

Go `error` results are strings; Go runtime panics (out-of-range index,
failed type assertion, nil dereference) are an explicit `panic` outcome.
-/

namespace CsiRsd

/-- gRPC status codes used by the driver (google.golang.org/grpc/codes). -/
inductive Code where
  | invalidArgument
  | notFound
  | alreadyExists
  | aborted
  | internal
  | unimplemented
  deriving DecidableEq, Repr

/-- A gRPC status error as produced by `status.Error(f)`: a code and a message. -/
structure GrpcError where
  code : Code
  msg : String
  deriving DecidableEq, Repr

/-- Side effects the driver issues against the remote RSD API, the NVMe
fabric and the local mounter.  `poll` records a `Get` of an action-info
resource together with the virtual time (seconds since the start of the
enclosing wait loop) at which it is issued. -/
inductive Effect where
  | poll (actionInfoPath : String) (time : Nat)
  | action (target : String) (resourceOdataID : String)
  | remoteCreate (capacity : Int)
  | remoteDelete (odataID : String)
  | connect (transport traddr traddrfamily trsvcid nqn hostnqn : String)
  | format (dev fsType : String)
  | mount (src tgt fsType : String) (opts : List String)
  | unmount (tgt : String)
  | disconnect (dev : String)
  deriving DecidableEq, Repr

/-- Result of a driver-internal operation: Go `nil` error, a non-nil error,
or a runtime panic. -/
inductive Res where
  | ok
  | err (msg : String)
  | panic
  deriving DecidableEq, Repr

/-! ## RSD resource data model (pkg/rsd)

Only the fields the driver reads are modelled; each structure mirrors the
JSON payload structure of the same name in the Go source. -/

/-- One entry of an `Identifiers` list (`DurableNameFormat`, `DurableName`). -/
structure Identifier where
  durableNameFormat : String
  durableName : String
  deriving DecidableEq, Repr

/-- One entry of `EndPoint.IPTransportDetails`; the nested `IPv4Address` /
`IPv6Address` objects are collapsed to their only read field `Address`. -/
structure IPTransportDetail where
  ipv4Address : String
  ipv6Address : String
  port : Int
  transportProtocol : String
  deriving DecidableEq, Repr

/-- `rsd.EndPoint` (endpoints.go): the fields read by the driver. -/
structure EndPoint where
  ipTransportDetails : List IPTransportDetail
  identifiers : List Identifier
  deriving DecidableEq, Repr

/-- `strings.ToUpper`, for the ASCII identifiers the driver compares
(`ROCE`, `ROCEV2`, `NQN`); defined by structural recursion over the
character data so that concrete runs reduce. -/
def asciiToUpper (s : String) : String := ⟨s.data.map Char.toUpper⟩

/-- `EndPoint.GetNQN`: first identifier whose `DurableNameFormat` is `NQN`
(case-insensitively), else the empty string. -/
def EndPoint.GetNQN (ep : EndPoint) : String :=
  match ep.identifiers.find? (fun ident => asciiToUpper ident.durableNameFormat == "NQN") with
  | some ident => ident.durableName
  | none => ""

/-- A JSON value appearing in `ActionInfo.Parameters[..].AllowableValues`
(`[]interface{}` in Go).  `obj` is a JSON object whose string-valued fields
are kept; `other` is any non-object value, on which the driver's type
assertion `value.(map[string]interface{})` panics. -/
inductive JVal where
  | obj (fields : List (String × String))
  | other
  deriving DecidableEq, Repr

/-- Field lookup in a modelled JSON object (`val["@odata.id"]`). -/
def JVal.lookupField (fields : List (String × String)) (key : String) : Option String :=
  match fields.find? (fun kv => kv.1 == key) with
  | some kv => some kv.2
  | none => none

/-- One entry of `ActionInfo.Parameters`. -/
structure ActionInfoParameter where
  name : String
  required : Bool
  dataType : String
  allowableValues : List JVal
  deriving DecidableEq, Repr

/-- `rsd.ActionInfo` (nodes.go): the action-metadata (allow-list) resource. -/
structure ActionInfo where
  id : String
  parameters : List ActionInfoParameter
  deriving DecidableEq, Repr

/-- `rsd.ComposedNodeResource`: target URL of an attach/detach action and
the `@Redfish.ActionInfo` path of its allow-list resource. -/
structure ComposedNodeResource where
  target : String
  redfishActionInfo : String
  deriving DecidableEq, Repr

/-- `Node.Actions`: the attach and detach actions of a composed node. -/
structure NodeActions where
  composedNodeAttachResource : ComposedNodeResource
  composedNodeDetachResource : ComposedNodeResource
  deriving DecidableEq, Repr

/-- `Node.Links`: the `@odata.id` of the associated computer system. -/
structure NodeLinks where
  computerSystemOdataID : String
  deriving DecidableEq, Repr

/-- `rsd.Node` (nodes.go): the fields read by the driver. -/
structure Node where
  id : String
  links : NodeLinks
  actions : NodeActions
  deriving DecidableEq, Repr

/-- `rsd.ComputerSystem` (computersystems.go): the fields read by the driver. -/
structure ComputerSystem where
  name : String
  odataID : String
  deriving DecidableEq, Repr

/-- `rsd.Volume` (volumes.go): the fields read by the driver. -/
structure RSDVolume where
  id : String
  odataID : String
  capacityBytes : Int
  deriving DecidableEq, Repr

/-- `rsd.VolumeCollection`: the driver only reads its `@odata.id` (as the
POST target of a volume create). -/
structure VolumeCollection where
  odataID : String
  deriving DecidableEq, Repr

/-! ## The bounded waiter (Node.WaitForAllowed, nodes.go) -/

/-- `nodeActionDelay` (nodes.go): the fixed poll interval, in seconds
(`10 * time.Second` in the source). -/
def nodeActionDelay : Nat := 10

/-- `nodeActionAttempts` (nodes.go): the bounded attempt count. -/
def nodeActionAttempts : Nat := 30

/-- Outcome of one scan of `actionInfo.Parameters[0].AllowableValues`:
the resource id was found among the allowable values, it was not found, or
the type assertion `value.(map[string]interface{})` panicked on a
non-object element before a match was found. -/
inductive ScanResult where
  | found
  | notFound
  | panicked
  deriving DecidableEq, Repr

/-- The inner loop of `WaitForAllowed`: for each allowable value, cast it to
a JSON object (panicking on failure, as the Go type assertion does) and
compare its `@odata.id` field with the wanted resource id. -/
def scanAllowableValues (resourceOdataID : String) : List JVal → ScanResult
  | [] => .notFound
  | .other :: _ => .panicked
  | .obj fields :: rest =>
    if JVal.lookupField fields "@odata.id" == some resourceOdataID then .found
    else scanAllowableValues resourceOdataID rest

/-- Outcome of `WaitForAllowed`: success, a wrapped transport error, a
runtime panic (empty `Parameters` or a non-object allowable value), or the
timeout error, which carries the node id, the resource id and the polled
action-info path that the Go error message reports. -/
inductive WaitOutcome where
  | success
  | getError (msg : String)
  | panicked
  | timeout (nodeID resourceOdataID actionInfoPath : String)
  deriving DecidableEq, Repr

/-- The timeout error message built by `WaitForAllowed` (Go:
`fmt.Errorf("node%s: resource %s didn't apear in the AllowableValues array
of %s: timeout expired", ...)`). -/
def waitTimeoutMsg (nodeID resourceOdataID actionInfoPath : String) : String :=
  "node" ++ nodeID ++ ": resource " ++ resourceOdataID ++
    " didn't apear in the AllowableValues array of " ++ actionInfoPath ++
    ": timeout expired"

/-- The evolving remote state is observed through `getActionInfo path i`:
the decoded action-info resource returned by the i-th `Get` of `path`.
`postAction target body` is the result of `rsd.Post` against an action
target.  This is the slice of the `Transport` capability that the attach
and detach paths use. -/
structure ActionEnv where
  getActionInfo : String → Nat → Except String ActionInfo
  postAction : String → String → Except String Unit

/-- One attempt of the `WaitForAllowed` loop body on a decoded action info:
`Parameters[0]` (panicking when `Parameters` is empty, as the unguarded
index does in Go), then the allowable-values scan. -/
def waitAttempt (resourceOdataID : String) (info : ActionInfo) : ScanResult :=
  match info.parameters with
  | [] => .panicked
  | p :: _ => scanAllowableValues resourceOdataID p.allowableValues

/-- The loop of `Node.WaitForAllowed`, by recursion on the remaining
attempt count; `i` is the index of the current attempt, polled at virtual
time `i * delay`.  Returns the outcome and the trace of polls issued. -/
def waitForAllowedAux (env : ActionEnv) (nodeID resourceOdataID actionInfoPath : String)
    (delay : Nat) : Nat → Nat → WaitOutcome × List Effect
  | 0, _ => (.timeout nodeID resourceOdataID actionInfoPath, [])
  | remaining + 1, i =>
    match env.getActionInfo actionInfoPath i with
    | .error e => (.getError e, [.poll actionInfoPath (i * delay)])
    | .ok info =>
      match waitAttempt resourceOdataID info with
      | .panicked => (.panicked, [.poll actionInfoPath (i * delay)])
      | .found => (.success, [.poll actionInfoPath (i * delay)])
      | .notFound =>
        let rest := waitForAllowedAux env nodeID resourceOdataID actionInfoPath delay
          remaining (i + 1)
        (rest.1, .poll actionInfoPath (i * delay) :: rest.2)

/-- `Node.WaitForAllowed(rsd, resourceOdataID, actionResource, delay, times)`:
poll the action-info resource until the resource id appears among
`Parameters[0].AllowableValues`, at most `times` times, sleeping `delay`
between attempts. -/
def Node.WaitForAllowed (env : ActionEnv) (node : Node) (resourceOdataID : String)
    (actionResource : ComposedNodeResource) (delay times : Nat) :
    WaitOutcome × List Effect :=
  waitForAllowedAux env node.id resourceOdataID actionResource.redfishActionInfo
    delay times 0

/-- `Node.Action(rsd, odataID, action)`: POST the resource body to the
action target. -/
def Node.Action (env : ActionEnv) (_node : Node) (odataID action : String) :
    Res × List Effect :=
  match env.postAction action odataID with
  | .error e => (.err e, [.action action odataID])
  | .ok _ => (.ok, [.action action odataID])

/-- `Node.attachOrDetach`: gate the action on `WaitForAllowed` with the
`nodeActionDelay`/`nodeActionAttempts` constants, then issue it. -/
def Node.attachOrDetach (env : ActionEnv) (node : Node) (resourceOdataID : String)
    (actionResource : ComposedNodeResource) : Res × List Effect :=
  match Node.WaitForAllowed env node resourceOdataID actionResource
      nodeActionDelay nodeActionAttempts with
  | (.success, polls) =>
    let acted := Node.Action env node resourceOdataID actionResource.target
    (acted.1, polls ++ acted.2)
  | (.getError e, polls) => (.err e, polls)
  | (.panicked, polls) => (.panic, polls)
  | (.timeout nodeID rid path, polls) => (.err (waitTimeoutMsg nodeID rid path), polls)

/-- `Node.AttachResource(rsd, resourceOdataID)`. -/
def Node.AttachResource (env : ActionEnv) (node : Node) (resourceOdataID : String) :
    Res × List Effect :=
  Node.attachOrDetach env node resourceOdataID node.actions.composedNodeAttachResource

/-- `Node.DetachResource(rsd, resourceOdataID)`. -/
def Node.DetachResource (env : ActionEnv) (node : Node) (resourceOdataID : String) :
    Res × List Effect :=
  Node.attachOrDetach env node resourceOdataID node.actions.composedNodeDetachResource

/-! ## CSI data model (internal/driver.go) -/

/-- Go result with payload: success, a non-nil `error`, or a runtime panic. -/
inductive Out (α : Type) where
  | ok (a : α)
  | err (msg : String)
  | panic
  deriving DecidableEq, Repr

/-- The slice of `csi.Volume` the driver populates: `VolumeId`,
`CapacityBytes` and the `{"name": name}` volume context. -/
structure CSIVolume where
  volumeId : String
  capacityBytes : Int
  volumeContextName : String
  deriving DecidableEq, Repr

/-- `endPointInfo` (internal/driver.go). -/
structure EndPointInfo where
  ipAddress : String
  ipAddressFamily : String
  ipPort : Int
  transportProtocol : String
  nqn : String
  deriving DecidableEq, Repr

/-- `csirsd.Volume` (internal/driver.go): the driver's record for one
volume.  Go pointer fields (`*rsd.Volume`, `*endPointInfo`) are `Option`s.
`stagingTargetPath` and `targetPaths` are the fields read by
`NodeGetVolumeStats` in the source; the revision of driver.go declaring
them is not in the snapshot, so they follow the spec's data model
(`stagingPath`, `targetPaths` as a set of bind-mount targets). -/
structure Volume where
  name : String
  csiVolume : CSIVolume
  rsdVolume : Option RSDVolume
  endPoint : Option EndPointInfo
  rsdNodeID : String
  rsdNodeNQN : String
  device : String
  isPublished : Bool
  isStaged : Bool
  stagingTargetPath : String
  targetPaths : List String
  deriving DecidableEq, Repr

/-- `drv.volumes`: the registry, a Go `map[string]*Volume` modelled as an
association list with unique keys (insertion is guarded by an existence
check in the source). -/
abbrev Registry := List (String × Volume)

/-- Go map indexing `drv.volumes[name]`. -/
def lookupVol : Registry → String → Option Volume
  | [], _ => none
  | (n, v) :: rest, name => if n == name then some v else lookupVol rest name

/-- Go `delete(drv.volumes, name)`. -/
def removeVol (volumes : Registry) (name : String) : Registry :=
  volumes.filter (fun nv => !(nv.1 == name))

/-- In-place mutation of the `*Volume` stored under `name` (Go mutates the
registry's record through the pointer). -/
def updateVol : Registry → String → Volume → Registry
  | [], _, _ => []
  | (n, v) :: rest, name, w =>
    if n == name then (n, w) :: rest else (n, v) :: updateVol rest name w

/-- `drv.findCSIVolumeByName`. -/
def findCSIVolumeByName (volumes : Registry) (name : String) : Option CSIVolume :=
  (lookupVol volumes name).map Volume.csiVolume

/-- `drv.findVolByID`: linear scan for the volume whose CSI volume id
matches; Go returns `("", nil)` when absent.  (Go map iteration order is
unspecified; the list order models one iteration order — registry keys are
unique, so at most one entry matches any id created by this driver.) -/
def findVolByID : Registry → String → String × Option Volume
  | [], _ => ("", none)
  | (name, vol) :: rest, volumeID =>
    if vol.csiVolume.volumeId == volumeID then (name, some vol)
    else findVolByID rest volumeID

/-- Lexicographic comparison on character lists, written by structural
recursion so that it evaluates inside the kernel.  Go's `sort.Strings`
compares strings bytewise, which on UTF-8 strings is code-point
(character) lexicographic order. -/
def charListLe : List Char → List Char → Bool
  | [], _ => true
  | _ :: _, [] => false
  | a :: as, b :: bs => if a < b then true else if b < a then false else charListLe as bs

theorem charListLe_iff (as bs : List Char) :
    charListLe as bs = true ↔ ¬ List.lt bs as := by
  induction as generalizing bs with
  | nil =>
    refine iff_of_true rfl ?_
    intro h
    cases h
  | cons a as ih =>
    cases bs with
    | nil =>
      simp only [charListLe, Bool.false_eq_true, false_iff, not_not]
      exact .nil a as
    | cons b bs =>
      by_cases hab : a < b
      · have hba : ¬ b < a := lt_asymm hab
        simp only [charListLe, if_pos hab]
        refine iff_of_true trivial ?_
        intro h
        cases h with
        | head _ _ h' => exact hba h'
        | tail h1 h2 h3 => exact h2 hab
      · by_cases hba : b < a
        · simp only [charListLe, if_neg hab, if_pos hba]
          refine iff_of_false (by simp) ?_
          exact fun h => h (List.lt.head bs as hba)
        · simp only [charListLe, if_neg hab, if_neg hba]
          rw [ih bs]
          constructor
          · intro h hl
            cases hl with
            | head _ _ h' => exact hba h'
            | tail h1 h2 h3 => exact h h3
          · intro h hl
            exact h (List.lt.tail hba hab hl)

theorem charListLe_le (a b : String) : charListLe a.data b.data = true ↔ a ≤ b := by
  rw [charListLe_iff]
  constructor
  · intro h hlt
    exact h ((List.lt_iff_lex_lt b.data a.data).mpr (String.lt_iff_toList_lt.mp hlt))
  · intro h hlt
    exact h (String.lt_iff_toList_lt.mpr ((List.lt_iff_lex_lt b.data a.data).mp hlt))

/-- Decidability of `≤` on `String` through `charListLe`, so that sorted
registry listings evaluate inside the kernel (core `String.le` is the same
lexicographic order on `.data`). -/
def stringLeDec : DecidableRel ((· ≤ ·) : String → String → Prop) :=
  fun a b => decidable_of_iff (charListLe a.data b.data = true) (charListLe_le a b)

/-- `drv.listCSIVolumes`: registry keys sorted (`sort.Strings`), then the
CSI volumes collected in key order. -/
def listCSIVolumes (volumes : Registry) : List CSIVolume :=
  let keys := @List.insertionSort String (· ≤ ·) stringLeDec (volumes.map Prod.fst)
  keys.filterMap (fun k => (lookupVol volumes k).map Volume.csiVolume)

/-! ## Collaborator environments -/

/-- The typed-resource reads/writes the controller pipeline performs
through the RSD `Transport` (pkg/rsd), as an oracle: each field gives the
decoded result of the corresponding remote operation. -/
structure RSDEnv extends ActionEnv where
  getNode : String → Except String Node
  getVolume : String → Except String RSDVolume
  getVolumeEndPoints : RSDVolume → Except String (List EndPoint)
  getComputerSystem : String → Except String ComputerSystem
  getComputerSystemEndPoints : ComputerSystem → Except String (List EndPoint)
  getVolumeCollection : Except String VolumeCollection
  createRSDVolume : VolumeCollection → Int → Except String RSDVolume
  deleteRSDVolume : RSDVolume → Except String Unit

/-- The `Mounter` collaborator (internal/mount.go), as an oracle. -/
structure MounterEnv where
  isFormatted : String → Except String Bool
  format : String → String → Except String Unit
  isMounted : String → String → Except String Bool
  mount : String → String → String → List String → Except String Unit
  unmount : String → Except String Unit

/-- The `NVMe` fabric connector (internal/nvme.go), as an oracle;
`connect` returns the local device path. -/
structure NVMeEnv where
  connect : String → String → String → String → String → String → Except String String
  disconnect : String → Except String Unit

/-! ## Controller-side core operations (internal/driver.go) -/

/-- `drv.newVolume(name, requiredCapacity)`: create the remote RSD volume
(volume collection lookup, POST, re-fetch — collapsed into
`getVolumeCollection`/`createRSDVolume`), then insert the local record. -/
def newVolume (env : RSDEnv) (volumes : Registry) (name : String)
    (requiredCapacity : Int) : Out CSIVolume × Registry × List Effect :=
  match lookupVol volumes name with
  | some _ => (.err ("failed attempt to create exisiting volume " ++ name), volumes, [])
  | none =>
    match env.getVolumeCollection with
    | .error e => (.err e, volumes, [])
    | .ok volCollection =>
      match env.createRSDVolume volCollection requiredCapacity with
      | .error e => (.err e, volumes, [.remoteCreate requiredCapacity])
      | .ok rsdVolume =>
        let csiVolume : CSIVolume :=
          { volumeId := rsdVolume.id
            capacityBytes := rsdVolume.capacityBytes
            volumeContextName := name }
        let vol : Volume :=
          { name := name
            csiVolume := csiVolume
            rsdVolume := some rsdVolume
            endPoint := none
            rsdNodeID := ""
            rsdNodeNQN := ""
            device := ""
            isPublished := false
            isStaged := false
            stagingTargetPath := ""
            targetPaths := [] }
        (.ok csiVolume, (name, vol) :: volumes, [.remoteCreate requiredCapacity])

/-- `drv.deleteVolume(volumeID)`: delete the RSD volume remotely, then
remove the local record; no-op when the id is unknown. -/
def deleteVolume (env : RSDEnv) (volumes : Registry) (volumeID : String) :
    Res × Registry × List Effect :=
  match findVolByID volumes volumeID with
  | (name, some vol) =>
    if name == "" then (.ok, volumes, [])
    else
      match vol.rsdVolume with
      | none => (.panic, volumes, [])
      | some rv =>
        match env.deleteRSDVolume rv with
        | .error e =>
          (.err ("can't delete RSD Volume " ++ rv.id ++ ": " ++ e), volumes,
            [.remoteDelete rv.odataID])
        | .ok _ => (.ok, removeVol volumes name, [.remoteDelete rv.odataID])
  | (_, none) => (.ok, volumes, [])

/-- `findTransportDetails(endPoint)`: first IP transport detail whose
protocol is ROCE/ROCEV2 and which has a non-empty IPv4 (preferred) or IPv6
address; the resulting `endPointInfo` carries protocol `rdma`. -/
def findTransportDetails' : List IPTransportDetail → Option EndPointInfo
  | [] => none
  | d :: rest =>
    let proto := asciiToUpper d.transportProtocol
    if proto != "ROCE" && proto != "ROCEV2" then findTransportDetails' rest
    else if d.ipv4Address != "" then
      some { ipAddress := d.ipv4Address, ipAddressFamily := "IPv4", ipPort := d.port,
             transportProtocol := "rdma", nqn := "" }
    else if d.ipv6Address != "" then
      some { ipAddress := d.ipv6Address, ipAddressFamily := "IPv6", ipPort := d.port,
             transportProtocol := "rdma", nqn := "" }
    else findTransportDetails' rest

/-- `findTransportDetails` over an endpoint's `IPTransportDetails`. -/
def findTransportDetails (endPoint : EndPoint) : Option EndPointInfo :=
  findTransportDetails' endPoint.ipTransportDetails

/-- `findEndPointInfo(endPoints)`: first endpoint with usable transport
details, with the endpoint's NQN filled in. -/
def findEndPointInfo : List EndPoint → Option EndPointInfo
  | [] => none
  | endPoint :: rest =>
    match findTransportDetails endPoint with
    | some epi => some { epi with nqn := endPoint.GetNQN }
    | none => findEndPointInfo rest

/-- `drv.getVolumeEndPointInfo(volume)`: fetch the endpoints of the
volume's RSD volume (nil dereference panics) and pick a suitable one. -/
def getVolumeEndPointInfo (env : RSDEnv) (volume : Volume) : Out EndPointInfo :=
  match volume.rsdVolume with
  | none => .panic
  | some rv =>
    match env.getVolumeEndPoints rv with
    | .error e => .err e
    | .ok endPoints =>
      if endPoints.isEmpty then
        .err ("no RSD Endpoints found for the volume " ++ volume.name)
      else
        match findEndPointInfo endPoints with
        | none => .err ("no suitable RSD endpoints found for the volume " ++ volume.name)
        | some epi => .ok epi

/-- `drv.getComputerSystemNQN(computerSystem)`: the first non-empty NQN
among the computer system's endpoints. -/
def getComputerSystemNQN (env : RSDEnv) (computerSystem : ComputerSystem) :
    Except String String :=
  match env.getComputerSystemEndPoints computerSystem with
  | .error e => .error e
  | .ok endPoints =>
    if endPoints.isEmpty then
      .error ("no RSD Endpoints found for the computer system " ++ computerSystem.name)
    else
      match endPoints.find? (fun ep => ep.GetNQN != "") with
      | some ep => .ok ep.GetNQN
      | none => .error ("no NQN found for the computer system " ++ computerSystem.name)

/-- `drv.publishVolume(volume, RSDNodeID)`: no-op when already published;
otherwise attach the RSD volume to the node (gated by the bounded waiter),
re-fetch the volume (the Go multi-assign sets `volume.RSDVolume` to nil on
a failed re-fetch), resolve its endpoint (the multi-assign sets
`volume.EndPoint` to nil on failure), resolve the computer system NQN (the
multi-assign sets `volume.RSDNodeNQN` to "" on failure), then commit
`isPublished`. -/
def publishVolume (env : RSDEnv) (volume : Volume) (rsdNodeID : String) :
    Res × Volume × List Effect :=
  if volume.isPublished then (.ok, volume, [])
  else
    match env.getNode rsdNodeID with
    | .error e => (.err e, volume, [])
    | .ok node =>
      match volume.rsdVolume with
      | none => (.panic, volume, [])
      | some rv =>
        match Node.AttachResource env.toActionEnv node rv.odataID with
        | (.err e, trace) => (.err e, volume, trace)
        | (.panic, trace) => (.panic, volume, trace)
        | (.ok, trace) =>
          match env.getVolume rv.id with
          | .error e => (.err e, { volume with rsdVolume := none }, trace)
          | .ok rv' =>
            let volume1 := { volume with rsdVolume := some rv' }
            match getVolumeEndPointInfo env volume1 with
            | .err e => (.err e, { volume1 with endPoint := none }, trace)
            | .panic => (.panic, volume1, trace)
            | .ok epi =>
              let volume2 := { volume1 with endPoint := some epi }
              match env.getComputerSystem node.links.computerSystemOdataID with
              | .error e => (.err e, volume2, trace)
              | .ok computerSystem =>
                match getComputerSystemNQN env computerSystem with
                | .error e => (.err e, { volume2 with rsdNodeNQN := "" }, trace)
                | .ok nqn =>
                  let volume3 :=
                    { volume2 with rsdNodeNQN := nqn, rsdNodeID := rsdNodeID, isPublished := true }
                  (.ok, volume3, trace)

/-- `drv.unpublishVolume(volume, RSDNodeID)`: no-op when not published;
otherwise detach (gated by the bounded waiter) and clear `RSDNodeNQN`,
`RSDNodeID` and `IsPublished`.  (`EndPoint` is not cleared.) -/
def unpublishVolume (env : RSDEnv) (volume : Volume) (rsdNodeID : String) :
    Res × Volume × List Effect :=
  if !volume.isPublished then (.ok, volume, [])
  else
    match env.getNode rsdNodeID with
    | .error e => (.err e, volume, [])
    | .ok node =>
      match volume.rsdVolume with
      | none => (.panic, volume, [])
      | some rv =>
        match Node.DetachResource env.toActionEnv node rv.odataID with
        | (.err e, trace) => (.err e, volume, trace)
        | (.panic, trace) => (.panic, volume, trace)
        | (.ok, trace) =>
          (.ok, { volume with rsdNodeNQN := "", rsdNodeID := "", isPublished := false },
            trace)

/-! ## Node-side core operations (internal/driver.go) -/

/-- `drv.nodeStageVolume(volume, fsType, stagingTargetPath, mountOpts)`:
requires published, no-op when already staged; connect over the fabric,
format only when unformatted, mount only when not mounted, then record the
device and the staged flag. -/
def nodeStageVolume (menv : MounterEnv) (nenv : NVMeEnv) (volume : Volume)
    (fsType stagingTargetPath : String) (mountOpts : List String) :
    Res × Volume × List Effect :=
  if !volume.isPublished then
    (.err ("nodeStageVolume: volume " ++ volume.name ++ " is not published"), volume, [])
  else if volume.isStaged then (.ok, volume, [])
  else
    match volume.endPoint with
    | none =>
      (.err ("nodeStageVolume: no endpoint found for volume " ++ volume.name), volume, [])
    | some ep =>
      let connectEff : Effect := .connect ep.transportProtocol ep.ipAddress
        ep.ipAddressFamily (toString ep.ipPort) ep.nqn volume.rsdNodeNQN
      match nenv.connect ep.transportProtocol ep.ipAddress ep.ipAddressFamily
          (toString ep.ipPort) ep.nqn volume.rsdNodeNQN with
      | .error e => (.err e, volume, [connectEff])
      | .ok dev =>
        match menv.isFormatted dev with
        | .error e => (.err e, volume, [connectEff])
        | .ok formatted =>
          let fmtStep : Except String Unit × List Effect :=
            if !formatted then (menv.format dev fsType, [.format dev fsType])
            else (.ok (), [])
          match fmtStep with
          | (.error e, fmtTrace) => (.err e, volume, connectEff :: fmtTrace)
          | (.ok _, fmtTrace) =>
            match menv.isMounted dev stagingTargetPath with
            | .error e => (.err e, volume, connectEff :: fmtTrace)
            | .ok mounted =>
              let mntStep : Except String Unit × List Effect :=
                if !mounted then
                  (menv.mount dev stagingTargetPath fsType mountOpts,
                    [.mount dev stagingTargetPath fsType mountOpts])
                else (.ok (), [])
              match mntStep with
              | (.error e, mntTrace) => (.err e, volume, connectEff :: fmtTrace ++ mntTrace)
              | (.ok _, mntTrace) =>
                (.ok, { volume with device := dev, isStaged := true },
                  connectEff :: fmtTrace ++ mntTrace)

/-- `drv.nodeUnstageVolume(volume, stagingTargetPath)`: no-op when not
staged; unmount the staging path only if still mounted, then disconnect
the fabric device; the device path and staged flag are cleared only after
a successful disconnect. -/
def nodeUnstageVolume (menv : MounterEnv) (nenv : NVMeEnv) (volume : Volume)
    (stagingTargetPath : String) : Res × Volume × List Effect :=
  if !volume.isStaged then (.ok, volume, [])
  else
    match menv.isMounted "" stagingTargetPath with
    | .error e => (.err e, volume, [])
    | .ok mounted =>
      let umStep : Except String Unit × List Effect :=
        if mounted then (menv.unmount stagingTargetPath, [.unmount stagingTargetPath])
        else (.ok (), [])
      match umStep with
      | (.error e, umTrace) => (.err e, volume, umTrace)
      | (.ok _, umTrace) =>
        match nenv.disconnect volume.device with
        | .error e => (.err e, volume, umTrace ++ [.disconnect volume.device])
        | .ok _ =>
          (.ok, { volume with device := "", isStaged := false },
            umTrace ++ [.disconnect volume.device])

/-- `drv.nodePublishVolume(volume, fsType, stagingTargetPath, targetPath,
mountOpts)`: bind-mount the staging path to the target path only when not
already mounted there.  The final line records the target path in the
volume's target-path set — Modelled from the spec: the driver.go revision
declaring `TargetPaths` (the one `NodeGetVolumeStats` in the source reads)
is missing from the snapshot; per the spec, NodePublishVolume "records
targetPath in the volume's target-path set". -/
def nodePublishVolume (menv : MounterEnv) (volume : Volume)
    (fsType stagingTargetPath targetPath : String) (mountOpts : List String) :
    Res × Volume × List Effect :=
  let recorded : Volume :=
    { volume with targetPaths :=
        if volume.targetPaths.contains targetPath then volume.targetPaths
        else targetPath :: volume.targetPaths }
  match menv.isMounted stagingTargetPath targetPath with
  | .error e => (.err e, volume, [])
  | .ok mounted =>
    if !mounted then
      match menv.mount stagingTargetPath targetPath fsType mountOpts with
      | .error e => (.err e, volume, [.mount stagingTargetPath targetPath fsType mountOpts])
      | .ok _ => (.ok, recorded, [.mount stagingTargetPath targetPath fsType mountOpts])
    else (.ok, recorded, [])

/-- `drv.nodeUnpublishVolume(volume, targetPath)`: unmount the target path
if mounted.  The removal of the target path from the volume's target-path
set is Modelled from the spec: "removes it from the target-path set"
(the declaring driver.go revision is missing from the snapshot). -/
def nodeUnpublishVolume (menv : MounterEnv) (volume : Volume) (targetPath : String) :
    Res × Volume × List Effect :=
  let removed : Volume :=
    { volume with targetPaths := volume.targetPaths.filter (fun tp => !(tp == targetPath)) }
  match menv.isMounted "" targetPath with
  | .error e => (.err e, volume, [])
  | .ok mounted =>
    if mounted then
      match menv.unmount targetPath with
      | .error e => (.err e, volume, [.unmount targetPath])
      | .ok _ => (.ok, removed, [.unmount targetPath])
    else (.ok, removed, [])

/-! ## RPC request/response surface (internal/controller.go, node.go) -/

/-- Result of an RPC handler: a response payload, a gRPC status error, or a
runtime panic. -/
inductive RpcOut (α : Type) where
  | ok (a : α)
  | err (e : GrpcError)
  | panic
  deriving DecidableEq, Repr

/-- `csi.VolumeCapability_AccessMode_Mode`: the single supported mode
against everything else. -/
inductive AccessMode where
  | singleNodeWriter
  | other
  deriving DecidableEq, Repr

/-- A volume capability as CreateVolume reads it: its access mode.  (The Go
`AccessMode` pointer is collapsed; `validateCapabilities` dereferences it
unguarded, and the driver's tests always populate it.) -/
structure VolumeCapability where
  accessMode : AccessMode
  deriving DecidableEq, Repr

/-- `csi.VolumeCapability_MountVolume`: fs type and mount flags. -/
structure MountVolume where
  fsType : String
  mountFlags : List String
  deriving DecidableEq, Repr

/-- A volume capability as the node RPCs read it: `GetMount()` yields
`none` for a non-mount (block) access type, on which the handlers'
unguarded `mnt.FsType` dereference panics. -/
structure NodeCapability where
  mount : Option MountVolume
  deriving DecidableEq, Repr

/-- Size constants (internal/controller.go): `KB = 1 << 10`, etc. -/
def KB : Int := 1 <<< 10

/-- `MB = 1 << 20`. -/
def MB : Int := 1 <<< 20

/-- `defaultVolumeCapacity = 16 * MB`. -/
def defaultVolumeCapacity : Int := 16 * MB

/-- `csi.CapacityRange`. -/
structure CapacityRange where
  requiredBytes : Int
  limitBytes : Int
  deriving DecidableEq, Repr

/-- `csi.CreateVolumeRequest`: the fields the driver reads. -/
structure CreateVolumeRequest where
  name : String
  volumeCapabilities : List VolumeCapability
  capacityRange : Option CapacityRange
  deriving DecidableEq, Repr

/-- `validateCapabilities(caps)`: every requested access mode must be the
single supported `SINGLE_NODE_WRITER` mode. -/
def validateCapabilities (caps : List VolumeCapability) : Bool :=
  caps.all (fun c => c.accessMode == .singleNodeWriter)

/-- `getRequiredCapacity(req)`: the default constant unless the request
specifies positive required bytes, with positive limit bytes overriding. -/
def getRequiredCapacity (req : CreateVolumeRequest) : Int :=
  match req.capacityRange with
  | none => defaultVolumeCapacity
  | some capRange =>
    let required :=
      if capRange.requiredBytes > 0 then capRange.requiredBytes else defaultVolumeCapacity
    if capRange.limitBytes > 0 then capRange.limitBytes else required

/-- `Driver.CreateVolume` (internal/controller.go): validation, the
idempotent existing-name branch, and creation of a new volume. -/
def CreateVolume (env : RSDEnv) (volumes : Registry) (req : CreateVolumeRequest) :
    RpcOut CSIVolume × Registry × List Effect :=
  if req.name == "" then
    (.err ⟨.invalidArgument, "Volume Name can't be empty"⟩, volumes, [])
  else if req.volumeCapabilities.isEmpty then
    (.err ⟨.invalidArgument, "Volume " ++ req.name ++ ": capabilities are missing"⟩,
      volumes, [])
  else if !validateCapabilities req.volumeCapabilities then
    (.err ⟨.invalidArgument,
      "Volume " ++ req.name ++
        ": invalid volume capabilities requested. Only SINGLE_NODE_WRITER is supported"⟩,
      volumes, [])
  else
    let requiredCapacity := getRequiredCapacity req
    match findCSIVolumeByName volumes req.name with
    | some vol =>
      if vol.capacityBytes < requiredCapacity then
        (.err ⟨.alreadyExists,
          "Volume " ++ req.name ++ " has smaller size(" ++ toString vol.capacityBytes ++
            ") than required(" ++ toString requiredCapacity ++ ")"⟩, volumes, [])
      else (.ok vol, volumes, [])
    | none =>
      match newVolume env volumes req.name requiredCapacity with
      | (.ok vol, volumes', trace) => (.ok vol, volumes', trace)
      | (.err e, volumes', trace) => (.err ⟨.internal, e⟩, volumes', trace)
      | (.panic, volumes', trace) => (.panic, volumes', trace)

/-- `csi.DeleteVolumeRequest`. -/
structure DeleteVolumeRequest where
  volumeId : String
  deriving DecidableEq, Repr

/-- `Driver.DeleteVolume` (internal/controller.go): an empty id is
`InvalidArgument`; a `deleteVolume` error is returned as-is (gRPC reports
status-less errors as `Unknown`; the `internal` bucket is reused here for
"not a status error built by the handler"). -/
def DeleteVolume (env : RSDEnv) (volumes : Registry) (req : DeleteVolumeRequest) :
    RpcOut Unit × Registry × List Effect :=
  if req.volumeId == "" then
    (.err ⟨.invalidArgument, "Volume ID is missing"⟩, volumes, [])
  else
    match deleteVolume env volumes req.volumeId with
    | (.ok, volumes', trace) => (.ok (), volumes', trace)
    | (.err e, volumes', trace) => (.err ⟨.internal, e⟩, volumes', trace)
    | (.panic, volumes', trace) => (.panic, volumes', trace)

/-- `csi.ControllerPublishVolumeRequest`: the fields the driver reads
(only the presence of the capability is checked). -/
structure ControllerPublishVolumeRequest where
  volumeId : String
  nodeId : String
  volumeCapability : Option NodeCapability
  deriving DecidableEq, Repr

/-- `Driver.ControllerPublishVolume` (internal/controller.go): validation,
volume lookup by id, node-identity check against the driver's configured
`RSDNodeID`, then `publishVolume`; the volume record is mutated in place
even when `publishVolume` fails partway.  The success payload is the
publish context's volume name. -/
def ControllerPublishVolume (env : RSDEnv) (rsdNodeID : String) (volumes : Registry)
    (req : ControllerPublishVolumeRequest) : RpcOut String × Registry × List Effect :=
  if req.volumeId == "" then
    (.err ⟨.invalidArgument, "Volume ID is missing"⟩, volumes, [])
  else if req.nodeId == "" then
    (.err ⟨.invalidArgument, "Node ID is missing"⟩, volumes, [])
  else if req.volumeCapability.isNone then
    (.err ⟨.invalidArgument, "Volume capability is missing"⟩, volumes, [])
  else
    match findVolByID volumes req.volumeId with
    | (_, none) =>
      (.err ⟨.notFound, "No volume with id '" ++ req.volumeId ++ "' found"⟩, volumes, [])
    | (name, some vol) =>
      if name == "" then
        (.err ⟨.notFound, "No volume with id '" ++ req.volumeId ++ "' found"⟩, volumes, [])
      else if !(rsdNodeID == req.nodeId) then
        (.err ⟨.notFound, "No node with id '" ++ req.nodeId ++ "' found"⟩, volumes, [])
      else
        match publishVolume env vol req.nodeId with
        | (.ok, vol', trace) => (.ok name, updateVol volumes name vol', trace)
        | (.err e, vol', trace) =>
          (.err ⟨.aborted,
            "error attaching volume " ++ name ++ "(" ++ req.volumeId ++ ") to the node " ++
              req.nodeId ++ ": " ++ e⟩, updateVol volumes name vol', trace)
        | (.panic, vol', trace) => (.panic, updateVol volumes name vol', trace)

/-- `csi.ControllerUnpublishVolumeRequest`. -/
structure ControllerUnpublishVolumeRequest where
  volumeId : String
  nodeId : String
  deriving DecidableEq, Repr

/-- `Driver.ControllerUnpublishVolume` (internal/controller.go). -/
def ControllerUnpublishVolume (env : RSDEnv) (rsdNodeID : String) (volumes : Registry)
    (req : ControllerUnpublishVolumeRequest) : RpcOut Unit × Registry × List Effect :=
  if req.volumeId == "" then
    (.err ⟨.invalidArgument, "Volume ID is missing"⟩, volumes, [])
  else if req.nodeId == "" then
    (.err ⟨.invalidArgument, "Node ID is missing"⟩, volumes, [])
  else
    match findVolByID volumes req.volumeId with
    | (_, none) =>
      (.err ⟨.notFound, "No volume with id '" ++ req.volumeId ++ "' found"⟩, volumes, [])
    | (name, some vol) =>
      if name == "" then
        (.err ⟨.notFound, "No volume with id '" ++ req.volumeId ++ "' found"⟩, volumes, [])
      else if !(rsdNodeID == req.nodeId) then
        (.err ⟨.notFound, "No node with id '" ++ req.nodeId ++ "' found"⟩, volumes, [])
      else
        match unpublishVolume env vol req.nodeId with
        | (.ok, vol', trace) => (.ok (), updateVol volumes name vol', trace)
        | (.err e, vol', trace) =>
          (.err ⟨.aborted,
            "error detaching volume " ++ name ++ "(" ++ req.volumeId ++ ") from the node " ++
              req.nodeId ++ ": " ++ e⟩, updateVol volumes name vol', trace)
        | (.panic, vol', trace) => (.panic, updateVol volumes name vol', trace)

/-- `getFsType(fsType)` (internal/node.go): default `"ext4"`. -/
def getFsType (fsType : String) : String :=
  if fsType != "" then fsType else "ext4"

/-- `csi.NodeStageVolumeRequest`: the fields the driver reads. -/
structure NodeStageVolumeRequest where
  volumeId : String
  stagingTargetPath : String
  volumeCapability : Option NodeCapability
  deriving DecidableEq, Repr

/-- `Driver.NodeStageVolume` (internal/node.go): validation, lookup, then
`nodeStageVolume` with the capability's fs type (defaulted) and mount
flags; `GetMount()` returning nil makes the unguarded `mnt.FsType` panic. -/
def NodeStageVolume (menv : MounterEnv) (nenv : NVMeEnv) (volumes : Registry)
    (req : NodeStageVolumeRequest) : RpcOut Unit × Registry × List Effect :=
  if req.volumeId == "" then
    (.err ⟨.invalidArgument, "NodeStageVolume: Volume ID can't be empty"⟩, volumes, [])
  else if req.stagingTargetPath == "" then
    (.err ⟨.invalidArgument, "NodeStageVolume: Staging Target Path is missing"⟩, volumes, [])
  else
    match req.volumeCapability with
    | none =>
      (.err ⟨.invalidArgument, "NodeStageVolume: Volume capability is missing"⟩, volumes, [])
    | some capability =>
      match findVolByID volumes req.volumeId with
      | (_, none) =>
        (.err ⟨.notFound, "NodeStageVolume: No volume with id '" ++ req.volumeId ++ "' found"⟩,
          volumes, [])
      | (name, some vol) =>
        if name == "" then
          (.err ⟨.notFound, "NodeStageVolume: No volume with id '" ++ req.volumeId ++ "' found"⟩,
            volumes, [])
        else
          match capability.mount with
          | none => (.panic, volumes, [])
          | some mnt =>
            match nodeStageVolume menv nenv vol (getFsType mnt.fsType)
                req.stagingTargetPath mnt.mountFlags with
            | (.ok, vol', trace) => (.ok (), updateVol volumes name vol', trace)
            | (.err e, vol', trace) =>
              (.err ⟨.aborted,
                "NodeStageVolume: error staging volume " ++ name ++ "(" ++ req.volumeId ++
                  ") on the path " ++ req.stagingTargetPath ++ ": " ++ e⟩,
                updateVol volumes name vol', trace)
            | (.panic, vol', trace) => (.panic, updateVol volumes name vol', trace)

/-- `csi.NodeUnstageVolumeRequest`. -/
structure NodeUnstageVolumeRequest where
  volumeId : String
  stagingTargetPath : String
  deriving DecidableEq, Repr

/-- `Driver.NodeUnstageVolume` (internal/node.go). -/
def NodeUnstageVolume (menv : MounterEnv) (nenv : NVMeEnv) (volumes : Registry)
    (req : NodeUnstageVolumeRequest) : RpcOut Unit × Registry × List Effect :=
  if req.volumeId == "" then
    (.err ⟨.invalidArgument, "NodeUnstageVolume: Volume ID is missing"⟩, volumes, [])
  else if req.stagingTargetPath == "" then
    (.err ⟨.invalidArgument, "NodeUnstageVolume: Staging Target Path is missing"⟩, volumes, [])
  else
    match findVolByID volumes req.volumeId with
    | (_, none) =>
      (.err ⟨.notFound, "NodeUnstageVolume: No volume with id '" ++ req.volumeId ++ "' found"⟩,
        volumes, [])
    | (name, some vol) =>
      if name == "" then
        (.err ⟨.notFound, "NodeUnstageVolume: No volume with id '" ++ req.volumeId ++ "' found"⟩,
          volumes, [])
      else
        match nodeUnstageVolume menv nenv vol req.stagingTargetPath with
        | (.ok, vol', trace) => (.ok (), updateVol volumes name vol', trace)
        | (.err e, vol', trace) =>
          (.err ⟨.aborted,
            "NodeUnstageVolume: error unstaging volume " ++ name ++ "(" ++ req.volumeId ++
              ") from the path " ++ req.stagingTargetPath ++ ": " ++ e⟩,
            updateVol volumes name vol', trace)
        | (.panic, vol', trace) => (.panic, updateVol volumes name vol', trace)

/-- `csi.NodePublishVolumeRequest`: the fields the driver reads. -/
structure NodePublishVolumeRequest where
  volumeId : String
  stagingTargetPath : String
  targetPath : String
  volumeCapability : Option NodeCapability
  readonly : Bool
  deriving DecidableEq, Repr

/-- `Driver.NodePublishVolume` (internal/node.go): validation, the mount
options built from the capability's flags with `bind` appended and `ro`
appended when read-only, lookup, then `nodePublishVolume`. -/
def NodePublishVolume (menv : MounterEnv) (volumes : Registry)
    (req : NodePublishVolumeRequest) : RpcOut Unit × Registry × List Effect :=
  if req.volumeId == "" then
    (.err ⟨.invalidArgument, "NodePublishVolume: Volume ID is missing"⟩, volumes, [])
  else if req.stagingTargetPath == "" then
    (.err ⟨.invalidArgument, "NodePublishVolume: Staging Target Path is missing"⟩, volumes, [])
  else if req.targetPath == "" then
    (.err ⟨.invalidArgument, "NodePublishVolume: Target Path is missing"⟩, volumes, [])
  else
    match req.volumeCapability with
    | none =>
      (.err ⟨.invalidArgument, "NodePublishVolume: Volume Capability is missing"⟩, volumes, [])
    | some capability =>
      match capability.mount with
      | none => (.panic, volumes, [])
      | some mnt =>
        let options := mnt.mountFlags ++ ["bind"] ++ (if req.readonly then ["ro"] else [])
        match findVolByID volumes req.volumeId with
        | (_, none) =>
          (.err ⟨.notFound,
            "NodePublishVolume: No volume with id '" ++ req.volumeId ++ "' found"⟩, volumes, [])
        | (name, some vol) =>
          if name == "" then
            (.err ⟨.notFound,
              "NodePublishVolume: No volume with id '" ++ req.volumeId ++ "' found"⟩,
              volumes, [])
          else
            match nodePublishVolume menv vol (getFsType mnt.fsType)
                req.stagingTargetPath req.targetPath options with
            | (.ok, vol', trace) => (.ok (), updateVol volumes name vol', trace)
            | (.err e, vol', trace) =>
              (.err ⟨.aborted,
                "NodePublishVolume: error publishing volume id " ++ req.volumeId ++ " on " ++
                  req.stagingTargetPath ++ ": " ++ e⟩, updateVol volumes name vol', trace)
            | (.panic, vol', trace) => (.panic, updateVol volumes name vol', trace)

/-- `csi.NodeUnpublishVolumeRequest`. -/
structure NodeUnpublishVolumeRequest where
  volumeId : String
  targetPath : String
  deriving DecidableEq, Repr

/-- `Driver.NodeUnpublishVolume` (internal/node.go). -/
def NodeUnpublishVolume (menv : MounterEnv) (volumes : Registry)
    (req : NodeUnpublishVolumeRequest) : RpcOut Unit × Registry × List Effect :=
  if req.volumeId == "" then
    (.err ⟨.invalidArgument, "NodeUnpublishVolume: Volume ID is missing"⟩, volumes, [])
  else if req.targetPath == "" then
    (.err ⟨.invalidArgument, "NodeUnpublishVolume: Target Path is missing"⟩, volumes, [])
  else
    match findVolByID volumes req.volumeId with
    | (_, none) =>
      (.err ⟨.notFound, "NodeUpublishVolume: No volume with id '" ++ req.volumeId ++ "' found"⟩,
        volumes, [])
    | (name, some vol) =>
      if name == "" then
        (.err ⟨.notFound, "NodeUpublishVolume: No volume with id '" ++ req.volumeId ++ "' found"⟩,
          volumes, [])
      else
        match nodeUnpublishVolume menv vol req.targetPath with
        | (.ok, vol', trace) => (.ok (), updateVol volumes name vol', trace)
        | (.err e, vol', trace) =>
          (.err ⟨.aborted,
            "NodeUnpublishVolume: error unpublishing volume id " ++ req.volumeId ++
              " from the path " ++ req.targetPath ++ ": " ++ e⟩,
            updateVol volumes name vol', trace)
        | (.panic, vol', trace) => (.panic, updateVol volumes name vol', trace)

/-- `csi.NodeGetVolumeStatsRequest`. -/
structure NodeGetVolumeStatsRequest where
  volumeId : String
  volumePath : String
  deriving DecidableEq, Repr

/-- `Driver.NodeGetVolumeStats` (internal/node.go): `NotFound` unless the
path is a recorded target path or the staging target path; otherwise the
volume's remote capacity is reported (nil `RSDVolume` would panic). -/
def NodeGetVolumeStats (volumes : Registry) (req : NodeGetVolumeStatsRequest) :
    RpcOut Int :=
  if req.volumeId == "" then
    .err ⟨.invalidArgument, "Volume ID can't be empty"⟩
  else if req.volumePath == "" then
    .err ⟨.invalidArgument, "Volume Path cannot be empty"⟩
  else
    match findVolByID volumes req.volumeId with
    | (_, none) => .err ⟨.notFound, "Volume Id '" ++ req.volumeId ++ "' not found"⟩
    | (_, some vol) =>
      if !vol.targetPaths.contains req.volumePath &&
          !(req.volumePath == vol.stagingTargetPath) then
        .err ⟨.notFound,
          "Path '" ++ req.volumePath ++
            "' is neither a staging target path nor target path for the volume '" ++
            req.volumeId ++ "'"⟩
      else
        match vol.rsdVolume with
        | none => .panic
        | some rv => .ok rv.capacityBytes

/-! ## ListVolumes (internal/controller.go) -/

/-- The entry-collection loop of `ListVolumes`: walk the sorted volumes
with their indices, keep those from `startingToken` on, and stop once
`numEntries` entries are collected. -/
def collectEntries (startingToken numEntries : Int) :
    List CSIVolume → Int → List CSIVolume → List CSIVolume
  | [], _, entries => entries.reverse
  | volume :: rest, i, entries =>
    if i ≥ startingToken then
      let entries' := volume :: entries
      if entries'.length = numEntries.toNat ∧ 0 ≤ numEntries then entries'.reverse
      else collectEntries startingToken numEntries rest (i + 1) entries'
    else collectEntries startingToken numEntries rest (i + 1) entries

/-- `csi.ListVolumesRequest` after token parsing: `startingToken` is the
integer `strconv.Atoi` produced (0 when the token string was empty), and
`maxEntries` the request's int32 field. -/
structure ListVolumesRequest where
  startingToken : Int
  maxEntries : Int
  deriving DecidableEq, Repr

/-- `Driver.ListVolumes` (internal/controller.go): `Aborted` when the
starting token exceeds the registry size; a page of the name-sorted
volumes plus the continuation token (`Itoa(startingToken + numEntries)`
when truncated, empty otherwise). -/
def ListVolumes (volumes : Registry) (req : ListVolumesRequest) :
    RpcOut (List CSIVolume × String) :=
  let csiVolumes := listCSIVolumes volumes
  let numVols : Int := csiVolumes.length
  if req.startingToken > numVols then
    .err ⟨.aborted,
      "startingToken " ++ toString req.startingToken ++
        " is greater than amount of volumes " ++ toString numVols⟩
  else
    let numEntries0 := numVols - req.startingToken
    let truncated := req.maxEntries > 0 ∧ req.maxEntries < numEntries0
    let numEntries := if truncated then req.maxEntries else numEntries0
    let nextToken := if truncated then toString (req.startingToken + numEntries) else ""
    .ok (collectEntries req.startingToken numEntries csiVolumes 0 [], nextToken)

/-! ## Driver state machine

A driver instance is its configured node id plus the registry; one step is
one registry-mutating RPC served against some collaborator behaviour.  The
registry after a step is the registry component returned by the handler —
in Go the handlers mutate the registry's `*Volume` records in place, so
partial mutations persist even when the handler returns an error. -/

/-- A driver instance's mutable state: the configured `RSDNodeID` and the
volume registry. -/
structure DriverState where
  rsdNodeID : String
  volumes : Registry
  deriving Repr

/-- One registry-mutating RPC together with the collaborator behaviour
(environment) observed while serving it. -/
inductive DriverOp where
  | create (env : RSDEnv) (req : CreateVolumeRequest)
  | delete (env : RSDEnv) (req : DeleteVolumeRequest)
  | ctrlPublish (env : RSDEnv) (req : ControllerPublishVolumeRequest)
  | ctrlUnpublish (env : RSDEnv) (req : ControllerUnpublishVolumeRequest)
  | nodeStage (menv : MounterEnv) (nenv : NVMeEnv) (req : NodeStageVolumeRequest)
  | nodeUnstage (menv : MounterEnv) (nenv : NVMeEnv) (req : NodeUnstageVolumeRequest)
  | nodePublish (menv : MounterEnv) (req : NodePublishVolumeRequest)
  | nodeUnpublish (menv : MounterEnv) (req : NodeUnpublishVolumeRequest)

/-- The registry after serving one RPC. -/
def applyOp (op : DriverOp) (s : DriverState) : DriverState :=
  match op with
  | .create env req => { s with volumes := (CreateVolume env s.volumes req).2.1 }
  | .delete env req => { s with volumes := (DeleteVolume env s.volumes req).2.1 }
  | .ctrlPublish env req =>
    { s with volumes := (ControllerPublishVolume env s.rsdNodeID s.volumes req).2.1 }
  | .ctrlUnpublish env req =>
    { s with volumes := (ControllerUnpublishVolume env s.rsdNodeID s.volumes req).2.1 }
  | .nodeStage menv nenv req =>
    { s with volumes := (NodeStageVolume menv nenv s.volumes req).2.1 }
  | .nodeUnstage menv nenv req =>
    { s with volumes := (NodeUnstageVolume menv nenv s.volumes req).2.1 }
  | .nodePublish menv req =>
    { s with volumes := (NodePublishVolume menv s.volumes req).2.1 }
  | .nodeUnpublish menv req =>
    { s with volumes := (NodeUnpublishVolume menv s.volumes req).2.1 }

/-- States reachable from a freshly constructed driver (`NewDriver`: empty
registry) by any sequence of registry-mutating RPCs under any collaborator
behaviours. -/
inductive Reachable : DriverState → Prop where
  | init (rsdNodeID : String) : Reachable ⟨rsdNodeID, []⟩
  | step (op : DriverOp) (s : DriverState) : Reachable s → Reachable (applyOp op s)

/-! ## Registry lemmas -/

theorem lookupVol_updateVol (reg : Registry) (name : String) (w : Volume) (n : String) :
    lookupVol (updateVol reg name w) n =
      if n == name then (if (lookupVol reg name).isSome then some w else none)
      else lookupVol reg n := by
  induction reg with
  | nil => simp [updateVol, lookupVol]
  | cons p rest ih =>
    obtain ⟨k, v⟩ := p
    by_cases hk : k = name
    · subst hk
      by_cases hn : n = k
      · subst hn; simp [updateVol, lookupVol]
      · simp [updateVol, lookupVol, hn, Ne.symm hn]
    · by_cases hn : n = k
      · subst hn
        simp [updateVol, lookupVol, hk, Ne.symm hk]
      · simp [updateVol, lookupVol, hk, Ne.symm hn, ih]

theorem lookupVol_removeVol (reg : Registry) (name : String) (n : String) :
    lookupVol (removeVol reg name) n =
      if n == name then none else lookupVol reg n := by
  induction reg with
  | nil => simp [removeVol, lookupVol]
  | cons p rest ih =>
    obtain ⟨k, v⟩ := p
    by_cases hk : k = name
    · subst hk
      by_cases hn : n = k
      · subst hn
        simp only [removeVol, List.filter_cons] at *
        simpa using ih
      · simp only [removeVol, List.filter_cons] at *
        simpa [lookupVol, hn, Ne.symm hn] using ih
    · by_cases hn : n = k
      · subst hn
        simp only [removeVol, List.filter_cons] at *
        simp [lookupVol, hk, Ne.symm hk]
      · simp only [removeVol, List.filter_cons] at *
        simpa [lookupVol, hk, hn, Ne.symm hn] using ih

theorem findVolByID_mem (reg : Registry) (volumeID name : String) (vol : Volume)
    (hfind : findVolByID reg volumeID = (name, some vol)) : (name, vol) ∈ reg := by
  induction reg with
  | nil => simp [findVolByID] at hfind
  | cons p rest ih =>
    obtain ⟨k, v⟩ := p
    by_cases hid : (v.csiVolume.volumeId == volumeID) = true
    · rw [findVolByID, if_pos hid] at hfind
      injection hfind with h1 h2
      injection h2 with h2
      subst h1; subst h2
      exact List.mem_cons_self _ _
    · rw [findVolByID, if_neg hid] at hfind
      exact List.mem_cons_of_mem _ (ih hfind)

theorem findVolByID_id (reg : Registry) (volumeID name : String) (vol : Volume)
    (hfind : findVolByID reg volumeID = (name, some vol)) :
    vol.csiVolume.volumeId = volumeID := by
  induction reg with
  | nil => simp [findVolByID] at hfind
  | cons p rest ih =>
    obtain ⟨k, v⟩ := p
    by_cases hid : (v.csiVolume.volumeId == volumeID) = true
    · rw [findVolByID, if_pos hid] at hfind
      injection hfind with h1 h2
      injection h2 with h2
      subst h2
      simpa using hid
    · rw [findVolByID, if_neg hid] at hfind
      exact ih hfind

theorem findVolByID_updateVol (reg : Registry) (volumeID name : String) (vol w : Volume)
    (hnd : (reg.map Prod.fst).Nodup)
    (hfind : findVolByID reg volumeID = (name, some vol))
    (hid : w.csiVolume.volumeId = vol.csiVolume.volumeId) :
    findVolByID (updateVol reg name w) volumeID = (name, some w) := by
  induction reg with
  | nil => simp [findVolByID] at hfind
  | cons p rest ih =>
    obtain ⟨k, v⟩ := p
    by_cases hvid : (v.csiVolume.volumeId == volumeID) = true
    · rw [findVolByID, if_pos hvid] at hfind
      injection hfind with h1 h2
      injection h2 with h2
      subst h1
      subst h2
      rw [updateVol, if_pos (by simp)]
      rw [findVolByID, if_pos (by rw [beq_iff_eq] at hvid ⊢; rw [hid, hvid])]
    · rw [findVolByID, if_neg hvid] at hfind
      have hmem := findVolByID_mem rest volumeID name vol hfind
      have hkeys : name ∈ rest.map Prod.fst := List.mem_map.mpr ⟨(name, vol), hmem, rfl⟩
      simp only [List.map_cons, List.nodup_cons] at hnd
      have hk : k ≠ name := fun h => hnd.1 (h ▸ hkeys)
      rw [updateVol, if_neg (by simp [hk])]
      rw [findVolByID, if_neg hvid]
      exact ih hnd.2 hfind

theorem lookupVol_of_mem_nodup (reg : Registry) (n : String) (v : Volume)
    (hnd : (reg.map Prod.fst).Nodup) (hmem : (n, v) ∈ reg) :
    lookupVol reg n = some v := by
  induction reg with
  | nil => simp at hmem
  | cons p rest ih =>
    obtain ⟨k, w⟩ := p
    simp only [List.map_cons, List.nodup_cons] at hnd
    rcases List.mem_cons.1 hmem with heq | hmem'
    · injection heq with h1 h2
      subst h1; subst h2
      simp [lookupVol]
    · by_cases hn : n = k
      · subst hn
        exact absurd (List.mem_map_of_mem Prod.fst hmem') hnd.1
      · rw [lookupVol, if_neg (by simpa using Ne.symm hn)]
        exact ih hnd.2 hmem'

/-! ## Claim C1 -/

/-- A collaborator environment in which every remote call fails; used to
instantiate theorems whose conclusions do not depend on the remote side. -/
def envFailAll : RSDEnv :=
  { getActionInfo := fun _ _ => .error "unreachable"
    postAction := fun _ _ => .error "unreachable"
    getNode := fun _ => .error "unreachable"
    getVolume := fun _ => .error "unreachable"
    getVolumeEndPoints := fun _ => .error "unreachable"
    getComputerSystem := fun _ => .error "unreachable"
    getComputerSystemEndPoints := fun _ => .error "unreachable"
    getVolumeCollection := .error "unreachable"
    createRSDVolume := fun _ _ => .error "unreachable"
    deleteRSDVolume := fun _ => .error "unreachable" }

/-- A registry record as `newVolume` would create it, used as concrete
input for witnesses. -/
def sampleVolume (name volumeID : String) (capacity : Int) : Volume :=
  { name := name
    csiVolume := { volumeId := volumeID, capacityBytes := capacity, volumeContextName := name }
    rsdVolume := some { id := volumeID, odataID := "/redfish/v1/StorageServices/1/Volumes/" ++ volumeID, capacityBytes := capacity }
    endPoint := none
    rsdNodeID := ""
    rsdNodeNQN := ""
    device := ""
    isPublished := false
    isStaged := false
    stagingTargetPath := ""
    targetPaths := [] }

/-- Claim C1: CreateVolume is idempotent by name — when a volume with the
requested name already exists with capacity `c` and the effective required
capacity is `r`, the call returns the stored volume (same volume id) with
no remote create issued and the registry unchanged when `c ≥ r`, and fails
with `AlreadyExists` leaving the registry unchanged (and no remote create)
when `c < r`. -/
theorem createVolume_idempotent_by_name (env : RSDEnv) (volumes : Registry)
    (req : CreateVolumeRequest) (vol : CSIVolume)
    (hname : (req.name == "") = false)
    (hcaps : req.volumeCapabilities.isEmpty = false)
    (hvalid : validateCapabilities req.volumeCapabilities = true)
    (hfound : findCSIVolumeByName volumes req.name = some vol) :
    (getRequiredCapacity req ≤ vol.capacityBytes →
      CreateVolume env volumes req = (.ok vol, volumes, [])) ∧
    (vol.capacityBytes < getRequiredCapacity req →
      CreateVolume env volumes req =
        (.err ⟨.alreadyExists,
          "Volume " ++ req.name ++ " has smaller size(" ++ toString vol.capacityBytes ++
            ") than required(" ++ toString (getRequiredCapacity req) ++ ")"⟩,
          volumes, [])) := by
  constructor <;> intro h <;>
    simp only [CreateVolume, hname, hcaps, hvalid, hfound, Bool.false_eq_true, if_false,
      Bool.not_true]
  · rw [if_neg (not_lt.2 h)]
  · rw [if_pos h]

/-- Witness for claim C1: a concrete registry holding `vol1` (capacity
`4194304`) and a repeat request with required bytes `1048576 ≤ 4194304`
returns the stored volume, no effects, registry unchanged. -/
theorem createVolume_idempotent_by_name_witness :
    CreateVolume envFailAll [("test", sampleVolume "test" "14" 4194304)]
      { name := "test", volumeCapabilities := [⟨.singleNodeWriter⟩],
        capacityRange := some ⟨1048576, 0⟩ } =
      (.ok (sampleVolume "test" "14" 4194304).csiVolume,
        [("test", sampleVolume "test" "14" 4194304)], []) :=
  (createVolume_idempotent_by_name envFailAll
    [("test", sampleVolume "test" "14" 4194304)]
    { name := "test", volumeCapabilities := [⟨.singleNodeWriter⟩],
      capacityRange := some ⟨1048576, 0⟩ }
    (sampleVolume "test" "14" 4194304).csiVolume
    (by decide) (by decide) (by decide) (by decide)).1 (by decide)

/-! ## Claim C8 -/

/-- Claim C8: DeleteVolume with an unregistered remote id (and a non-empty
id) succeeds as a no-op leaving the registry unchanged; with a registered
id it issues the remote delete, and on remote-delete failure the error is
propagated with the local record retained, while on success the local
record is removed after the remote delete. -/
theorem deleteVolume_remote_first (env : RSDEnv) (volumes : Registry)
    (volumeID : String) (hid : (volumeID == "") = false) :
    ((findVolByID volumes volumeID).2 = none →
      DeleteVolume env volumes ⟨volumeID⟩ = (.ok (), volumes, [])) ∧
    (∀ name vol rv, findVolByID volumes volumeID = (name, some vol) →
      (name == "") = false → vol.rsdVolume = some rv →
      (env.deleteRSDVolume rv = .ok () →
        DeleteVolume env volumes ⟨volumeID⟩ =
          (.ok (), removeVol volumes name, [.remoteDelete rv.odataID])) ∧
      (∀ e, env.deleteRSDVolume rv = .error e →
        DeleteVolume env volumes ⟨volumeID⟩ =
          (.err ⟨.internal, "can't delete RSD Volume " ++ rv.id ++ ": " ++ e⟩,
            volumes, [.remoteDelete rv.odataID]))) := by
  constructor
  · intro hnone
    cases hpair : findVolByID volumes volumeID with
    | mk nm o =>
      rw [hpair] at hnone
      simp only at hnone
      subst hnone
      simp [DeleteVolume, hid, deleteVolume, hpair]
  · intro name vol rv hfind hname hrv
    constructor
    · intro hdel
      simp [DeleteVolume, hid, deleteVolume, hfind, hname, hrv, hdel]
    · intro e hdel
      simp [DeleteVolume, hid, deleteVolume, hfind, hname, hrv, hdel]

/-- An environment whose remote volume delete succeeds and every other
remote call fails. -/
def envDeleteOk : RSDEnv :=
  { envFailAll with deleteRSDVolume := fun _ => .ok () }

/-- Witness for claim C8: deleting the registered volume with remote id
`14` issues the remote delete and removes the local record. -/
theorem deleteVolume_remote_first_witness :
    DeleteVolume envDeleteOk [("test", sampleVolume "test" "14" 4194304)] ⟨"14"⟩ =
      (.ok (), [], [.remoteDelete "/redfish/v1/StorageServices/1/Volumes/14"]) :=
  ((deleteVolume_remote_first envDeleteOk [("test", sampleVolume "test" "14" 4194304)]
    "14" (by decide)).2 "test" (sampleVolume "test" "14" 4194304)
    { id := "14", odataID := "/redfish/v1/StorageServices/1/Volumes/14",
      capacityBytes := 4194304 }
    (by decide) (by decide) (by decide)).1 rfl

/-! ## Claim C10 -/

/-- An action-metadata resource that decodes with an empty `Parameters`
list. -/
def actionInfoEmptyParams : ActionInfo := { id := "AttachResourceActionInfo", parameters := [] }

/-- An action-metadata resource whose first parameter has an
`AllowableValues` element that is not a JSON object. -/
def actionInfoNonObject : ActionInfo :=
  { id := "AttachResourceActionInfo"
    parameters := [ { name := "Resource", required := true, dataType := "",
                      allowableValues := [.other] } ] }

/-- A composed node with attach/detach actions, used as concrete input. -/
def sampleNode : Node :=
  { id := "1"
    links := { computerSystemOdataID := "/redfish/v1/Systems/s1" }
    actions :=
      { composedNodeAttachResource :=
          { target := "/redfish/v1/Nodes/1/Actions/ComposedNode.AttachResource"
            redfishActionInfo := "/redfish/v1/Nodes/1/Actions/AttachResourceActionInfo" }
        composedNodeDetachResource :=
          { target := "/redfish/v1/Nodes/1/Actions/ComposedNode.DetachResource"
            redfishActionInfo := "/redfish/v1/Nodes/1/Actions/DetachResourceActionInfo" } } }

/-- Claim C10: WaitForAllowed is not total over well-typed remote replies —
an action-info resource decoding with an empty `Parameters` list makes the
unguarded `actionInfo.Parameters[0]` access panic, and an `AllowableValues`
element that is not an object makes the unchecked cast panic; no error
branch guards either. -/
theorem waitForAllowed_not_total :
    (Node.WaitForAllowed
      { getActionInfo := fun _ _ => .ok actionInfoEmptyParams,
        postAction := fun _ _ => .ok () }
      sampleNode "/redfish/v1/StorageServices/1/Volumes/14"
      sampleNode.actions.composedNodeAttachResource
      nodeActionDelay nodeActionAttempts).1 = .panicked ∧
    (Node.WaitForAllowed
      { getActionInfo := fun _ _ => .ok actionInfoNonObject,
        postAction := fun _ _ => .ok () }
      sampleNode "/redfish/v1/StorageServices/1/Volumes/14"
      sampleNode.actions.composedNodeAttachResource
      nodeActionDelay nodeActionAttempts).1 = .panicked := by
  constructor <;> rfl

/-! ## Claim C6 -/

theorem waitForAllowedAux_success (env : ActionEnv) (nid rid path : String) (delay : Nat) :
    ∀ times i0, (waitForAllowedAux env nid rid path delay times i0).1 = .success →
      ∃ j, j < times ∧ ∃ info, env.getActionInfo path (i0 + j) = .ok info ∧
        waitAttempt rid info = .found := by
  intro times
  induction times with
  | zero => intro i0 h; simp [waitForAllowedAux] at h
  | succ n ih =>
    intro i0 h
    unfold waitForAllowedAux at h
    cases hget : env.getActionInfo path i0 with
    | error e => simp only [hget] at h; simp at h
    | ok info =>
      simp only [hget] at h
      cases hatt : waitAttempt rid info with
      | panicked => simp only [hatt] at h; simp at h
      | found => exact ⟨0, Nat.succ_pos n, info, by simpa using hget, hatt⟩
      | notFound =>
        simp only [hatt] at h
        obtain ⟨j, hj, info', hget', hatt'⟩ := ih (i0 + 1) h
        refine ⟨j + 1, by omega, info', ?_, hatt'⟩
        have harith : i0 + (j + 1) = i0 + 1 + j := by omega
        rw [harith]
        exact hget'

theorem waitForAllowedAux_timeout (env : ActionEnv) (nid rid path : String) (delay : Nat) :
    ∀ times i0,
      (∀ j, j < times → ∃ info, env.getActionInfo path (i0 + j) = .ok info ∧
        waitAttempt rid info = .notFound) →
      waitForAllowedAux env nid rid path delay times i0 =
        (.timeout nid rid path,
          (List.range times).map (fun j => .poll path ((i0 + j) * delay))) := by
  intro times
  induction times with
  | zero => intro i0 _; simp [waitForAllowedAux]
  | succ n ih =>
    intro i0 hall
    obtain ⟨info, hget, hatt⟩ := hall 0 (Nat.succ_pos n)
    rw [Nat.add_zero] at hget
    unfold waitForAllowedAux
    simp only [hget, hatt]
    rw [ih (i0 + 1) (fun j hj => by
      have h := hall (j + 1) (by omega)
      have harith : i0 + (j + 1) = i0 + 1 + j := by omega
      rw [harith] at h
      exact h)]
    simp only
    congr 1
    rw [List.range_succ_eq_map, List.map_cons, List.map_map]
    congr 1
    apply List.map_congr_left
    intro a _
    simp only [Function.comp_apply]
    congr 2
    omega

theorem waitForAllowedAux_polls (env : ActionEnv) (nid rid path : String) (delay : Nat) :
    ∀ times i0, ∃ k, k ≤ times ∧
      (waitForAllowedAux env nid rid path delay times i0).2 =
        (List.range k).map (fun j => .poll path ((i0 + j) * delay)) := by
  intro times
  induction times with
  | zero => intro i0; exact ⟨0, le_refl 0, by simp [waitForAllowedAux]⟩
  | succ n ih =>
    intro i0
    unfold waitForAllowedAux
    cases hget : env.getActionInfo path i0 with
    | error e =>
      refine ⟨1, by omega, ?_⟩
      simp [hget, List.range_succ]
    | ok info =>
      cases hatt : waitAttempt rid info with
      | panicked => refine ⟨1, by omega, ?_⟩; simp [hget, hatt, List.range_succ]
      | found => refine ⟨1, by omega, ?_⟩; simp [hget, hatt, List.range_succ]
      | notFound =>
        obtain ⟨k, hk, hpolls⟩ := ih (i0 + 1)
        refine ⟨k + 1, by omega, ?_⟩
        simp only [hget, hatt, hpolls]
        rw [List.range_succ_eq_map, List.map_cons, List.map_map]
        congr 1
        apply List.map_congr_left
        intro a _
        simp only [Function.comp_apply]
        congr 2
        omega

theorem Node.Action_snd (env : ActionEnv) (node : Node) (odataID action : String) :
    (Node.Action env node odataID action).2 = [.action action odataID] := by
  unfold Node.Action
  cases env.postAction action odataID <;> rfl

theorem attachOrDetach_of_wait_success (env : ActionEnv) (node : Node) (rid : String)
    (res : ComposedNodeResource)
    (h : (Node.WaitForAllowed env node rid res nodeActionDelay nodeActionAttempts).1 =
      .success) :
    Node.attachOrDetach env node rid res =
      ((Node.Action env node rid res.target).1,
        (Node.WaitForAllowed env node rid res nodeActionDelay nodeActionAttempts).2 ++
          (Node.Action env node rid res.target).2) := by
  unfold Node.attachOrDetach
  cases hwait : Node.WaitForAllowed env node rid res nodeActionDelay nodeActionAttempts with
  | mk outcome polls =>
    rw [hwait] at h
    simp only at h
    subst h
    rfl

theorem attachOrDetach_snd_of_wait_not_success (env : ActionEnv) (node : Node) (rid : String)
    (res : ComposedNodeResource)
    (h : (Node.WaitForAllowed env node rid res nodeActionDelay nodeActionAttempts).1 ≠
      .success) :
    (Node.attachOrDetach env node rid res).2 =
      (Node.WaitForAllowed env node rid res nodeActionDelay nodeActionAttempts).2 := by
  unfold Node.attachOrDetach
  cases hwait : Node.WaitForAllowed env node rid res nodeActionDelay nodeActionAttempts with
  | mk outcome polls =>
    rw [hwait] at h
    cases outcome with
    | success => simp at h
    | getError e => rfl
    | panicked => rfl
    | timeout a b c => rfl

theorem wait_snd_polls (env : ActionEnv) (node : Node) (rid : String)
    (res : ComposedNodeResource) (tgt r : String) :
    Effect.action tgt r ∉
      (Node.WaitForAllowed env node rid res nodeActionDelay nodeActionAttempts).2 := by
  intro hin
  obtain ⟨k', _, hpolls⟩ := waitForAllowedAux_polls env node.id rid res.redfishActionInfo
    nodeActionDelay nodeActionAttempts 0
  rw [show (Node.WaitForAllowed env node rid res nodeActionDelay nodeActionAttempts).2 =
      (waitForAllowedAux env node.id rid res.redfishActionInfo nodeActionDelay
        nodeActionAttempts 0).2 from rfl, hpolls] at hin
  obtain ⟨j, _, hj⟩ := List.mem_map.1 hin
  simp at hj

theorem attachOrDetach_action_only_after_allowed (env : ActionEnv) (node : Node)
    (rid : String) (res : ComposedNodeResource) (tgt r : String)
    (hmem : Effect.action tgt r ∈ (Node.attachOrDetach env node rid res).2) :
    tgt = res.target ∧ r = rid ∧
    (Node.attachOrDetach env node rid res).2 =
      (Node.WaitForAllowed env node rid res nodeActionDelay nodeActionAttempts).2 ++
        [.action res.target rid] ∧
    ∃ j, j < nodeActionAttempts ∧ ∃ info,
      env.getActionInfo res.redfishActionInfo j = .ok info ∧
      waitAttempt rid info = .found := by
  by_cases hsucc : (Node.WaitForAllowed env node rid res nodeActionDelay
      nodeActionAttempts).1 = .success
  · rw [attachOrDetach_of_wait_success env node rid res hsucc, Node.Action_snd] at hmem
    rcases List.mem_append.1 hmem with hmem' | hmem'
    · exact absurd hmem' (wait_snd_polls env node rid res tgt r)
    · have heq := List.mem_singleton.1 hmem'
      rw [Effect.action.injEq] at heq
      refine ⟨heq.1, heq.2, ?_, ?_⟩
      · rw [attachOrDetach_of_wait_success env node rid res hsucc]
        simp [Node.Action_snd]
      · simpa [Node.WaitForAllowed] using
          waitForAllowedAux_success env node.id rid res.redfishActionInfo nodeActionDelay
            nodeActionAttempts 0 (by simpa [Node.WaitForAllowed] using hsucc)
  · rw [attachOrDetach_snd_of_wait_not_success env node rid res hsucc] at hmem
    exact absurd hmem (wait_snd_polls env node rid res tgt r)

/-- Claim C6: attach and detach are gated by the bounded waiter — the
polling constants are 10 seconds and 30 attempts; `AttachResource` and
`DetachResource` are `attachOrDetach` on the node's attach/detach action;
an issued action effect implies the waiter succeeded, i.e. some poll among
the 30 found the resource id allowed, and the action comes after all the
polls; and when every one of the 30 polls decodes without the resource id
allowed, the result is the timeout error naming the polled action-info
resource, with exactly 30 polls spaced 10 seconds apart and no action
issued. -/
theorem attachDetach_gated_by_waiter (env : ActionEnv) (node : Node) (rid : String) :
    nodeActionDelay = 10 ∧ nodeActionAttempts = 30 ∧
    Node.AttachResource env node rid =
      Node.attachOrDetach env node rid node.actions.composedNodeAttachResource ∧
    Node.DetachResource env node rid =
      Node.attachOrDetach env node rid node.actions.composedNodeDetachResource ∧
    (∀ res : ComposedNodeResource, ∀ tgt r,
      Effect.action tgt r ∈ (Node.attachOrDetach env node rid res).2 →
      tgt = res.target ∧ r = rid ∧
      (Node.attachOrDetach env node rid res).2 =
        (Node.WaitForAllowed env node rid res nodeActionDelay nodeActionAttempts).2 ++
          [.action res.target rid] ∧
      ∃ j, j < nodeActionAttempts ∧ ∃ info,
        env.getActionInfo res.redfishActionInfo j = .ok info ∧
        waitAttempt rid info = .found) ∧
    (∀ res : ComposedNodeResource,
      (∀ j, j < nodeActionAttempts → ∃ info,
        env.getActionInfo res.redfishActionInfo j = .ok info ∧
        waitAttempt rid info = .notFound) →
      Node.attachOrDetach env node rid res =
        (.err (waitTimeoutMsg node.id rid res.redfishActionInfo),
          (List.range nodeActionAttempts).map
            (fun j => .poll res.redfishActionInfo (j * nodeActionDelay)))) := by
  refine ⟨rfl, rfl, rfl, rfl, ?_, ?_⟩
  · intro res tgt r hmem
    exact attachOrDetach_action_only_after_allowed env node rid res tgt r hmem
  · intro res hall
    have htimeout := waitForAllowedAux_timeout env node.id rid res.redfishActionInfo
      nodeActionDelay nodeActionAttempts 0 (fun j hj => by simpa using hall j hj)
    unfold Node.attachOrDetach
    rw [show Node.WaitForAllowed env node rid res nodeActionDelay nodeActionAttempts =
        waitForAllowedAux env node.id rid res.redfishActionInfo nodeActionDelay
          nodeActionAttempts 0 from rfl, htimeout]
    simp

/-- An action-metadata resource whose allow list never contains anything. -/
def actionInfoNever : ActionInfo :=
  { id := "AttachResourceActionInfo"
    parameters := [ { name := "Resource", required := true, dataType := "",
                      allowableValues := [] } ] }

/-- Witness for claim C6: an environment whose allow list never lists the
resource makes `AttachResource` time out after 30 polls 10 seconds apart,
naming the polled resource and issuing no action. -/
theorem attachDetach_gated_by_waiter_witness :
    Node.attachOrDetach
      { getActionInfo := fun _ _ => .ok actionInfoNever, postAction := fun _ _ => .ok () }
      sampleNode "/redfish/v1/StorageServices/1/Volumes/14"
      sampleNode.actions.composedNodeAttachResource =
      (.err (waitTimeoutMsg "1" "/redfish/v1/StorageServices/1/Volumes/14"
          "/redfish/v1/Nodes/1/Actions/AttachResourceActionInfo"),
        (List.range 30).map
          (fun j => .poll "/redfish/v1/Nodes/1/Actions/AttachResourceActionInfo" (j * 10))) :=
  ((attachDetach_gated_by_waiter
    { getActionInfo := fun _ _ => .ok actionInfoNever, postAction := fun _ _ => .ok () }
    sampleNode "/redfish/v1/StorageServices/1/Volumes/14").2.2.2.2.2
    sampleNode.actions.composedNodeAttachResource
    (fun j _ => ⟨actionInfoNever, rfl, rfl⟩))

/-! ## Per-volume invariants across operations -/

/-- The node-identity half of the spec's publish invariant: the volume's
remote node NQN is non-empty exactly when the volume is published. -/
def nqnInv (v : Volume) : Prop := (v.rsdNodeNQN ≠ "") ↔ (v.isPublished = true)

/-- How one core operation may evolve one volume record: it preserves
`nqnInv`, and it may switch `isStaged` from false to true only when the
resulting record is published. -/
def VolStep (v w : Volume) : Prop :=
  (nqnInv v → nqnInv w) ∧ (v.isStaged = false → w.isStaged = true → w.isPublished = true)

theorem getComputerSystemNQN_ok_ne (env : RSDEnv) (cs : ComputerSystem) (nqn : String)
    (h : getComputerSystemNQN env cs = .ok nqn) : nqn ≠ "" := by
  unfold getComputerSystemNQN at h
  cases hget : env.getComputerSystemEndPoints cs with
  | error e => simp only [hget] at h; simp at h
  | ok endPoints =>
    simp only [hget] at h
    by_cases hemp : endPoints.isEmpty
    · rw [if_pos hemp] at h; simp at h
    · rw [if_neg hemp] at h
      cases hfind : endPoints.find? (fun ep => ep.GetNQN != "") with
      | none => simp only [hfind] at h; simp at h
      | some ep =>
        simp only [hfind] at h
        injection h with h
        subst h
        have := List.find?_some hfind
        simpa using this

theorem publishVolume_vol_cases (env : RSDEnv) (v : Volume) (nid : String) :
    (publishVolume env v nid).2.1 = v ∨
    (∃ orv, (publishVolume env v nid).2.1 = { v with rsdVolume := orv }) ∨
    (∃ rv, (publishVolume env v nid).2.1 = { v with rsdVolume := some rv, endPoint := none }) ∨
    (∃ rv epi,
      (publishVolume env v nid).2.1 = { v with rsdVolume := some rv, endPoint := some epi }) ∨
    (∃ rv epi, v.isPublished = false ∧
      (publishVolume env v nid).2.1 =
        { v with rsdVolume := some rv, endPoint := some epi, rsdNodeNQN := "" }) ∨
    (∃ rv epi nqn nid2, nqn ≠ "" ∧
      (publishVolume env v nid).2.1 =
        { v with rsdVolume := some rv, endPoint := some epi, rsdNodeNQN := nqn, rsdNodeID := nid2, isPublished := true }) := by
  unfold publishVolume
  try dsimp only
  repeat' split
  all_goals first
    | exact Or.inl rfl
    | exact Or.inr (Or.inl ⟨_, rfl⟩)
    | exact Or.inr (Or.inr (Or.inl ⟨_, rfl⟩))
    | exact Or.inr (Or.inr (Or.inr (Or.inl ⟨_, _, rfl⟩)))
    | exact Or.inr (Or.inr (Or.inr (Or.inr (Or.inl ⟨_, _, by simp_all, rfl⟩))))
    | (rename_i heq
       exact Or.inr (Or.inr (Or.inr (Or.inr (Or.inr
         ⟨_, _, _, _, getComputerSystemNQN_ok_ne _ _ _ heq, rfl⟩)))))

theorem unpublishVolume_vol_cases (env : RSDEnv) (v : Volume) (nid : String) :
    (unpublishVolume env v nid).2.1 = v ∨
    (unpublishVolume env v nid).2.1 =
      { v with rsdNodeNQN := "", rsdNodeID := "", isPublished := false } := by
  unfold unpublishVolume
  try dsimp only
  repeat' split
  all_goals first
    | exact Or.inl rfl
    | exact Or.inr rfl

theorem nodeStageVolume_vol_cases (menv : MounterEnv) (nenv : NVMeEnv) (v : Volume)
    (fsType sp : String) (opts : List String) :
    (nodeStageVolume menv nenv v fsType sp opts).2.1 = v ∨
    (∃ dev, v.isPublished = true ∧
      (nodeStageVolume menv nenv v fsType sp opts).2.1 =
        { v with device := dev, isStaged := true }) := by
  unfold nodeStageVolume
  try dsimp only
  repeat' split
  all_goals first
    | exact Or.inl rfl
    | exact Or.inr ⟨_, by simp_all, rfl⟩

theorem nodeUnstageVolume_vol_cases (menv : MounterEnv) (nenv : NVMeEnv) (v : Volume)
    (sp : String) :
    (nodeUnstageVolume menv nenv v sp).2.1 = v ∨
    (nodeUnstageVolume menv nenv v sp).2.1 = { v with device := "", isStaged := false } := by
  unfold nodeUnstageVolume
  try dsimp only
  repeat' split
  all_goals first
    | exact Or.inl rfl
    | exact Or.inr rfl

theorem nodePublishVolume_vol_cases (menv : MounterEnv) (v : Volume)
    (fsType sp tp : String) (opts : List String) :
    (nodePublishVolume menv v fsType sp tp opts).2.1 = v ∨
    (∃ tps, (nodePublishVolume menv v fsType sp tp opts).2.1 = { v with targetPaths := tps }) := by
  unfold nodePublishVolume
  try dsimp only
  repeat' split
  all_goals first
    | exact Or.inl rfl
    | exact Or.inr ⟨_, rfl⟩

theorem nodeUnpublishVolume_vol_cases (menv : MounterEnv) (v : Volume) (tp : String) :
    (nodeUnpublishVolume menv v tp).2.1 = v ∨
    (∃ tps, (nodeUnpublishVolume menv v tp).2.1 = { v with targetPaths := tps }) := by
  unfold nodeUnpublishVolume
  try dsimp only
  repeat' split
  all_goals first
    | exact Or.inl rfl
    | exact Or.inr ⟨_, rfl⟩

theorem volStep_publishVolume (env : RSDEnv) (v : Volume) (nid : String) :
    VolStep v ((publishVolume env v nid).2.1) := by
  rcases publishVolume_vol_cases env v nid with h | ⟨orv, h⟩ | ⟨rv, h⟩ | ⟨rv, epi, h⟩ |
    ⟨rv, epi, hpub, h⟩ | ⟨rv, epi, nqn, nid2, hnqn, h⟩ <;>
    rw [h] <;>
    refine ⟨fun hinv => ?_, fun h0 h1 => ?_⟩ <;>
    simp_all [nqnInv]

theorem volStep_unpublishVolume (env : RSDEnv) (v : Volume) (nid : String) :
    VolStep v ((unpublishVolume env v nid).2.1) := by
  rcases unpublishVolume_vol_cases env v nid with h | h <;>
    rw [h] <;>
    refine ⟨fun hinv => ?_, fun h0 h1 => ?_⟩ <;>
    simp_all [nqnInv]

theorem volStep_nodeStageVolume (menv : MounterEnv) (nenv : NVMeEnv) (v : Volume)
    (fsType sp : String) (opts : List String) :
    VolStep v ((nodeStageVolume menv nenv v fsType sp opts).2.1) := by
  rcases nodeStageVolume_vol_cases menv nenv v fsType sp opts with h | ⟨dev, hpub, h⟩ <;>
    rw [h] <;>
    refine ⟨fun hinv => ?_, fun h0 h1 => ?_⟩ <;>
    simp_all [nqnInv]

theorem volStep_nodeUnstageVolume (menv : MounterEnv) (nenv : NVMeEnv) (v : Volume)
    (sp : String) : VolStep v ((nodeUnstageVolume menv nenv v sp).2.1) := by
  rcases nodeUnstageVolume_vol_cases menv nenv v sp with h | h <;>
    rw [h] <;>
    refine ⟨fun hinv => ?_, fun h0 h1 => ?_⟩ <;>
    simp_all [nqnInv]

theorem volStep_nodePublishVolume (menv : MounterEnv) (v : Volume)
    (fsType sp tp : String) (opts : List String) :
    VolStep v ((nodePublishVolume menv v fsType sp tp opts).2.1) := by
  rcases nodePublishVolume_vol_cases menv v fsType sp tp opts with h | ⟨tps, h⟩ <;>
    rw [h] <;>
    refine ⟨fun hinv => ?_, fun h0 h1 => ?_⟩ <;>
    simp_all [nqnInv]

theorem volStep_nodeUnpublishVolume (menv : MounterEnv) (v : Volume) (tp : String) :
    VolStep v ((nodeUnpublishVolume menv v tp).2.1) := by
  rcases nodeUnpublishVolume_vol_cases menv v tp with h | ⟨tps, h⟩ <;>
    rw [h] <;>
    refine ⟨fun hinv => ?_, fun h0 h1 => ?_⟩ <;>
    simp_all [nqnInv]

/-! ## Registry evolution across RPCs -/

theorem keys_updateVol (reg : Registry) (name : String) (w : Volume) :
    (updateVol reg name w).map Prod.fst = reg.map Prod.fst := by
  induction reg with
  | nil => rfl
  | cons p rest ih =>
    obtain ⟨k, v⟩ := p
    by_cases hk : (k == name) = true
    · simp [updateVol, hk]
    · simp only [updateVol]
      rw [if_neg hk]
      simp [ih]

theorem mem_updateVol (reg : Registry) (name : String) (w : Volume) (p : String × Volume)
    (hmem : p ∈ updateVol reg name w) : p ∈ reg ∨ p = (name, w) := by
  induction reg with
  | nil => simp [updateVol] at hmem
  | cons q rest ih =>
    obtain ⟨k, v⟩ := q
    by_cases hk : (k == name) = true
    · simp only [updateVol, if_pos hk] at hmem
      rcases List.mem_cons.1 hmem with heq | hmem'
      · right
        rw [heq]
        simp only [Prod.mk.injEq]
        exact ⟨by simpa using hk, trivial⟩
      · exact Or.inl (List.mem_cons_of_mem _ hmem')
    · simp only [updateVol, if_neg hk] at hmem
      rcases List.mem_cons.1 hmem with heq | hmem'
      · exact Or.inl (heq ▸ List.mem_cons_self _ _)
      · rcases ih hmem' with h | h
        · exact Or.inl (List.mem_cons_of_mem _ h)
        · exact Or.inr h

theorem lookupVol_mem (reg : Registry) (n : String) (v : Volume)
    (h : lookupVol reg n = some v) : (n, v) ∈ reg := by
  induction reg with
  | nil => simp [lookupVol] at h
  | cons p rest ih =>
    obtain ⟨k, w⟩ := p
    by_cases hk : (k == n) = true
    · rw [lookupVol, if_pos hk] at h
      injection h with h
      subst h
      rw [show k = n by simpa using hk]
      exact List.mem_cons_self _ _
    · rw [lookupVol, if_neg hk] at h
      exact List.mem_cons_of_mem _ (ih h)

theorem lookupVol_eq_none_iff (reg : Registry) (n : String) :
    lookupVol reg n = none ↔ n ∉ reg.map Prod.fst := by
  induction reg with
  | nil => simp [lookupVol]
  | cons p rest ih =>
    obtain ⟨k, v⟩ := p
    by_cases hk : (k == n) = true
    · rw [lookupVol, if_pos hk]
      simp [show k = n by simpa using hk]
    · rw [lookupVol, if_neg hk]
      simp only [List.map_cons, List.mem_cons]
      rw [ih]
      constructor
      · intro h hor
        rcases hor with h1 | h1
        · exact absurd (by simpa [h1] : (k == n) = true) hk
        · exact h h1
      · intro h h1
        exact h (Or.inr h1)

/-- The registry after `CreateVolume` is unchanged or extended with a
fresh, unpublished, unstaged record with an empty node NQN at an unused
name. -/
theorem CreateVolume_volumes_cases (env : RSDEnv) (volumes : Registry)
    (req : CreateVolumeRequest) :
    (CreateVolume env volumes req).2.1 = volumes ∨
    (∃ record, lookupVol volumes req.name = none ∧ record.rsdNodeNQN = "" ∧
      record.isPublished = false ∧ record.isStaged = false ∧
      (CreateVolume env volumes req).2.1 = (req.name, record) :: volumes) := by
  unfold CreateVolume
  by_cases h1 : (req.name == "") = true
  · rw [if_pos h1]; exact Or.inl rfl
  · rw [if_neg h1]
    by_cases h2 : req.volumeCapabilities.isEmpty = true
    · rw [if_pos h2]; exact Or.inl rfl
    · rw [if_neg h2]
      by_cases h3 : (!validateCapabilities req.volumeCapabilities) = true
      · rw [if_pos h3]; exact Or.inl rfl
      · rw [if_neg h3]
        cases hfound : findCSIVolumeByName volumes req.name with
        | some vol =>
          simp only [hfound]
          split <;> exact Or.inl rfl
        | none =>
          simp only [hfound]
          have hlook : lookupVol volumes req.name = none := by
            unfold findCSIVolumeByName at hfound
            exact Option.map_eq_none.1 hfound
          unfold newVolume
          simp only [hlook]
          cases hvc : env.getVolumeCollection with
          | error e =>
            simp only [hvc]
            first | exact Or.inl rfl | exact Or.inl trivial
          | ok volCollection =>
            simp only [hvc]
            cases hcr : env.createRSDVolume volCollection (getRequiredCapacity req) with
            | error e =>
              simp only [hcr]
              first | exact Or.inl rfl | exact Or.inl trivial
            | ok rsdVolume =>
              simp only [hcr]
              refine Or.inr ⟨{ name := req.name, csiVolume := { volumeId := rsdVolume.id, capacityBytes := rsdVolume.capacityBytes, volumeContextName := req.name }, rsdVolume := some rsdVolume, endPoint := none, rsdNodeID := "", rsdNodeNQN := "", device := "", isPublished := false, isStaged := false, stagingTargetPath := "", targetPaths := [] }, ?_, ?_, ?_, ?_, ?_⟩ <;> first | trivial | rfl | exact hlook

/-- The registry after `DeleteVolume` is unchanged or has one name
removed. -/
theorem DeleteVolume_volumes_cases (env : RSDEnv) (volumes : Registry)
    (req : DeleteVolumeRequest) :
    (DeleteVolume env volumes req).2.1 = volumes ∨
    ∃ name, (DeleteVolume env volumes req).2.1 = removeVol volumes name := by
  unfold DeleteVolume
  by_cases h1 : (req.volumeId == "") = true
  · rw [if_pos h1]; exact Or.inl rfl
  · rw [if_neg h1]
    unfold deleteVolume
    cases hfind : findVolByID volumes req.volumeId with
    | mk name ovol =>
      cases ovol with
      | none => exact Or.inl rfl
      | some vol =>
        try dsimp only
        by_cases hname : (name == "") = true
        · rw [if_pos hname]; exact Or.inl rfl
        · rw [if_neg hname]
          cases hrv : vol.rsdVolume with
          | none => exact Or.inl rfl
          | some rv =>
            try dsimp only
            cases hdel : env.deleteRSDVolume rv with
            | error e => exact Or.inl rfl
            | ok u => exact Or.inr ⟨name, rfl⟩

/-- The registry after `ControllerPublishVolume` is unchanged or has the
record found by id replaced by a `VolStep`-evolution of it. -/
theorem ControllerPublishVolume_volumes_cases (env : RSDEnv) (rsdNodeID : String)
    (volumes : Registry) (req : ControllerPublishVolumeRequest) :
    (ControllerPublishVolume env rsdNodeID volumes req).2.1 = volumes ∨
    ∃ name vol w, findVolByID volumes req.volumeId = (name, some vol) ∧
      (ControllerPublishVolume env rsdNodeID volumes req).2.1 = updateVol volumes name w ∧
      VolStep vol w := by
  unfold ControllerPublishVolume
  by_cases h1 : (req.volumeId == "") = true
  · rw [if_pos h1]; exact Or.inl rfl
  · rw [if_neg h1]
    by_cases h2 : (req.nodeId == "") = true
    · rw [if_pos h2]; exact Or.inl rfl
    · rw [if_neg h2]
      by_cases h3 : req.volumeCapability.isNone = true
      · rw [if_pos h3]; exact Or.inl rfl
      · rw [if_neg h3]
        cases hfind : findVolByID volumes req.volumeId with
        | mk name ovol =>
          cases ovol with
          | none => exact Or.inl rfl
          | some vol =>
            try dsimp only
            by_cases hname : (name == "") = true
            · rw [if_pos hname]; exact Or.inl rfl
            · rw [if_neg hname]
              by_cases hnid : (!(rsdNodeID == req.nodeId)) = true
              · rw [if_pos hnid]; exact Or.inl rfl
              · rw [if_neg hnid]
                cases hcore : publishVolume env vol req.nodeId with
                | mk r rest =>
                  cases rest with
                  | mk vol2 trace =>
                    refine Or.inr ⟨name, vol, vol2, rfl, ?_, ?_⟩
                    · cases r <;> rfl
                    · have h := volStep_publishVolume env vol req.nodeId
                      rw [hcore] at h
                      exact h

/-- The registry after `ControllerUnpublishVolume` is unchanged or has the
record found by id replaced by a `VolStep`-evolution of it. -/
theorem ControllerUnpublishVolume_volumes_cases (env : RSDEnv) (rsdNodeID : String)
    (volumes : Registry) (req : ControllerUnpublishVolumeRequest) :
    (ControllerUnpublishVolume env rsdNodeID volumes req).2.1 = volumes ∨
    ∃ name vol w, findVolByID volumes req.volumeId = (name, some vol) ∧
      (ControllerUnpublishVolume env rsdNodeID volumes req).2.1 = updateVol volumes name w ∧
      VolStep vol w := by
  unfold ControllerUnpublishVolume
  by_cases h1 : (req.volumeId == "") = true
  · rw [if_pos h1]; exact Or.inl rfl
  · rw [if_neg h1]
    by_cases h2 : (req.nodeId == "") = true
    · rw [if_pos h2]; exact Or.inl rfl
    · rw [if_neg h2]
      cases hfind : findVolByID volumes req.volumeId with
      | mk name ovol =>
        cases ovol with
        | none => exact Or.inl rfl
        | some vol =>
          try dsimp only
          by_cases hname : (name == "") = true
          · rw [if_pos hname]; exact Or.inl rfl
          · rw [if_neg hname]
            by_cases hnid : (!(rsdNodeID == req.nodeId)) = true
            · rw [if_pos hnid]; exact Or.inl rfl
            · rw [if_neg hnid]
              cases hcore : unpublishVolume env vol req.nodeId with
              | mk r rest =>
                cases rest with
                | mk vol2 trace =>
                  refine Or.inr ⟨name, vol, vol2, rfl, ?_, ?_⟩
                  · cases r <;> rfl
                  · have h := volStep_unpublishVolume env vol req.nodeId
                    rw [hcore] at h
                    exact h

/-- The registry after `NodeStageVolume` is unchanged or has the record
found by id replaced by a `VolStep`-evolution of it. -/
theorem NodeStageVolume_volumes_cases (menv : MounterEnv) (nenv : NVMeEnv)
    (volumes : Registry) (req : NodeStageVolumeRequest) :
    (NodeStageVolume menv nenv volumes req).2.1 = volumes ∨
    ∃ name vol w, findVolByID volumes req.volumeId = (name, some vol) ∧
      (NodeStageVolume menv nenv volumes req).2.1 = updateVol volumes name w ∧
      VolStep vol w := by
  unfold NodeStageVolume
  by_cases h1 : (req.volumeId == "") = true
  · rw [if_pos h1]; exact Or.inl rfl
  · rw [if_neg h1]
    by_cases h2 : (req.stagingTargetPath == "") = true
    · rw [if_pos h2]; exact Or.inl rfl
    · rw [if_neg h2]
      cases hcap : req.volumeCapability with
      | none => exact Or.inl rfl
      | some capability =>
        try dsimp only
        cases hfind : findVolByID volumes req.volumeId with
        | mk name ovol =>
          cases ovol with
          | none => exact Or.inl rfl
          | some vol =>
            try dsimp only
            by_cases hname : (name == "") = true
            · rw [if_pos hname]; exact Or.inl rfl
            · rw [if_neg hname]
              cases hmnt : capability.mount with
              | none => exact Or.inl rfl
              | some mnt =>
                try dsimp only
                cases hcore : nodeStageVolume menv nenv vol (getFsType mnt.fsType)
                    req.stagingTargetPath mnt.mountFlags with
                | mk r rest =>
                  cases rest with
                  | mk vol2 trace =>
                    refine Or.inr ⟨name, vol, vol2, rfl, ?_, ?_⟩
                    · cases r <;> rfl
                    · have h := volStep_nodeStageVolume menv nenv vol (getFsType mnt.fsType)
                        req.stagingTargetPath mnt.mountFlags
                      rw [hcore] at h
                      exact h

/-- The registry after `NodeUnstageVolume` is unchanged or has the record
found by id replaced by a `VolStep`-evolution of it. -/
theorem NodeUnstageVolume_volumes_cases (menv : MounterEnv) (nenv : NVMeEnv)
    (volumes : Registry) (req : NodeUnstageVolumeRequest) :
    (NodeUnstageVolume menv nenv volumes req).2.1 = volumes ∨
    ∃ name vol w, findVolByID volumes req.volumeId = (name, some vol) ∧
      (NodeUnstageVolume menv nenv volumes req).2.1 = updateVol volumes name w ∧
      VolStep vol w := by
  unfold NodeUnstageVolume
  by_cases h1 : (req.volumeId == "") = true
  · rw [if_pos h1]; exact Or.inl rfl
  · rw [if_neg h1]
    by_cases h2 : (req.stagingTargetPath == "") = true
    · rw [if_pos h2]; exact Or.inl rfl
    · rw [if_neg h2]
      cases hfind : findVolByID volumes req.volumeId with
      | mk name ovol =>
        cases ovol with
        | none => exact Or.inl rfl
        | some vol =>
          try dsimp only
          by_cases hname : (name == "") = true
          · rw [if_pos hname]; exact Or.inl rfl
          · rw [if_neg hname]
            cases hcore : nodeUnstageVolume menv nenv vol req.stagingTargetPath with
            | mk r rest =>
              cases rest with
              | mk vol2 trace =>
                refine Or.inr ⟨name, vol, vol2, rfl, ?_, ?_⟩
                · cases r <;> rfl
                · have h := volStep_nodeUnstageVolume menv nenv vol req.stagingTargetPath
                  rw [hcore] at h
                  exact h

/-- The registry after `NodePublishVolume` is unchanged or has the record
found by id replaced by a `VolStep`-evolution of it. -/
theorem NodePublishVolume_volumes_cases (menv : MounterEnv)
    (volumes : Registry) (req : NodePublishVolumeRequest) :
    (NodePublishVolume menv volumes req).2.1 = volumes ∨
    ∃ name vol w, findVolByID volumes req.volumeId = (name, some vol) ∧
      (NodePublishVolume menv volumes req).2.1 = updateVol volumes name w ∧
      VolStep vol w := by
  unfold NodePublishVolume
  by_cases h1 : (req.volumeId == "") = true
  · rw [if_pos h1]; exact Or.inl rfl
  · rw [if_neg h1]
    by_cases h2 : (req.stagingTargetPath == "") = true
    · rw [if_pos h2]; exact Or.inl rfl
    · rw [if_neg h2]
      by_cases h3 : (req.targetPath == "") = true
      · rw [if_pos h3]; exact Or.inl rfl
      · rw [if_neg h3]
        cases hcap : req.volumeCapability with
        | none => exact Or.inl rfl
        | some capability =>
          try dsimp only
          cases hmnt : capability.mount with
          | none => exact Or.inl rfl
          | some mnt =>
            cases hfind : findVolByID volumes req.volumeId with
            | mk name ovol =>
              cases ovol with
              | none => exact Or.inl rfl
              | some vol =>
                try dsimp only
                by_cases hname : (name == "") = true
                · rw [if_pos hname]; exact Or.inl rfl
                · rw [if_neg hname]
                  cases hcore : nodePublishVolume menv vol (getFsType mnt.fsType)
                      req.stagingTargetPath req.targetPath
                      (mnt.mountFlags ++ ["bind"] ++ (if req.readonly then ["ro"] else [])) with
                  | mk r rest =>
                    cases rest with
                    | mk vol2 trace =>
                      refine Or.inr ⟨name, vol, vol2, rfl, ?_, ?_⟩
                      · cases r <;> rfl
                      · have h := volStep_nodePublishVolume menv vol (getFsType mnt.fsType)
                          req.stagingTargetPath req.targetPath
                          (mnt.mountFlags ++ ["bind"] ++ (if req.readonly then ["ro"] else []))
                        rw [hcore] at h
                        exact h

/-- The registry after `NodeUnpublishVolume` is unchanged or has the record
found by id replaced by a `VolStep`-evolution of it. -/
theorem NodeUnpublishVolume_volumes_cases (menv : MounterEnv)
    (volumes : Registry) (req : NodeUnpublishVolumeRequest) :
    (NodeUnpublishVolume menv volumes req).2.1 = volumes ∨
    ∃ name vol w, findVolByID volumes req.volumeId = (name, some vol) ∧
      (NodeUnpublishVolume menv volumes req).2.1 = updateVol volumes name w ∧
      VolStep vol w := by
  unfold NodeUnpublishVolume
  by_cases h1 : (req.volumeId == "") = true
  · rw [if_pos h1]; exact Or.inl rfl
  · rw [if_neg h1]
    by_cases h2 : (req.targetPath == "") = true
    · rw [if_pos h2]; exact Or.inl rfl
    · rw [if_neg h2]
      cases hfind : findVolByID volumes req.volumeId with
      | mk name ovol =>
        cases ovol with
        | none => exact Or.inl rfl
        | some vol =>
          try dsimp only
          by_cases hname : (name == "") = true
          · rw [if_pos hname]; exact Or.inl rfl
          · rw [if_neg hname]
            cases hcore : nodeUnpublishVolume menv vol req.targetPath with
            | mk r rest =>
              cases rest with
              | mk vol2 trace =>
                refine Or.inr ⟨name, vol, vol2, rfl, ?_, ?_⟩
                · cases r <;> rfl
                · have h := volStep_nodeUnpublishVolume menv vol req.targetPath
                  rw [hcore] at h
                  exact h

/-- Key uniqueness and the NQN invariant hold in every reachable driver
state. -/
theorem reachable_registry_inv (s : DriverState) (h : Reachable s) :
    (s.volumes.map Prod.fst).Nodup ∧ ∀ p ∈ s.volumes, nqnInv p.2 := by
  induction h with
  | init nid => exact ⟨List.nodup_nil, by simp⟩
  | step op s hre ih =>
    obtain ⟨hnd, hinv⟩ := ih
    have hupd : ∀ (id name : String) (vol w : Volume),
        findVolByID s.volumes id = (name, some vol) → VolStep vol w →
        ((updateVol s.volumes name w).map Prod.fst).Nodup ∧
        ∀ p ∈ updateVol s.volumes name w, nqnInv p.2 := by
      intro id name vol w hfind hstep
      constructor
      · rw [keys_updateVol]; exact hnd
      · intro p hp
        rcases mem_updateVol s.volumes name w p hp with hmem | heq
        · exact hinv p hmem
        · rw [heq]
          exact hstep.1 (hinv (name, vol) (findVolByID_mem s.volumes id name vol hfind))
    cases op with
    | create env req =>
      simp only [applyOp]
      rcases CreateVolume_volumes_cases env s.volumes req with hcase |
        ⟨record, hnone, hn, hp, _, hcase⟩ <;> rw [hcase]
      · exact ⟨hnd, hinv⟩
      · constructor
        · simp only [List.map_cons, List.nodup_cons]
          exact ⟨(lookupVol_eq_none_iff s.volumes req.name).1 hnone, hnd⟩
        · intro p hp2
          rcases List.mem_cons.1 hp2 with heq | hmem
          · rw [heq]; simp [nqnInv, hn, hp]
          · exact hinv p hmem
    | delete env req =>
      simp only [applyOp]
      rcases DeleteVolume_volumes_cases env s.volumes req with hcase | ⟨name, hcase⟩ <;>
        rw [hcase]
      · exact ⟨hnd, hinv⟩
      · constructor
        · exact List.Nodup.sublist (List.Sublist.map _ (List.filter_sublist _)) hnd
        · intro p hp2
          exact hinv p (List.mem_of_mem_filter hp2)
    | ctrlPublish env req =>
      simp only [applyOp]
      rcases ControllerPublishVolume_volumes_cases env s.rsdNodeID s.volumes req with hcase |
        ⟨name, vol, w, hfind, hcase, hstep⟩ <;> rw [hcase]
      · exact ⟨hnd, hinv⟩
      · exact hupd req.volumeId name vol w hfind hstep
    | ctrlUnpublish env req =>
      simp only [applyOp]
      rcases ControllerUnpublishVolume_volumes_cases env s.rsdNodeID s.volumes req with hcase |
        ⟨name, vol, w, hfind, hcase, hstep⟩ <;> rw [hcase]
      · exact ⟨hnd, hinv⟩
      · exact hupd req.volumeId name vol w hfind hstep
    | nodeStage menv nenv req =>
      simp only [applyOp]
      rcases NodeStageVolume_volumes_cases menv nenv s.volumes req with hcase |
        ⟨name, vol, w, hfind, hcase, hstep⟩ <;> rw [hcase]
      · exact ⟨hnd, hinv⟩
      · exact hupd req.volumeId name vol w hfind hstep
    | nodeUnstage menv nenv req =>
      simp only [applyOp]
      rcases NodeUnstageVolume_volumes_cases menv nenv s.volumes req with hcase |
        ⟨name, vol, w, hfind, hcase, hstep⟩ <;> rw [hcase]
      · exact ⟨hnd, hinv⟩
      · exact hupd req.volumeId name vol w hfind hstep
    | nodePublish menv req =>
      simp only [applyOp]
      rcases NodePublishVolume_volumes_cases menv s.volumes req with hcase |
        ⟨name, vol, w, hfind, hcase, hstep⟩ <;> rw [hcase]
      · exact ⟨hnd, hinv⟩
      · exact hupd req.volumeId name vol w hfind hstep
    | nodeUnpublish menv req =>
      simp only [applyOp]
      rcases NodeUnpublishVolume_volumes_cases menv s.volumes req with hcase |
        ⟨name, vol, w, hfind, hcase, hstep⟩ <;> rw [hcase]
      · exact ⟨hnd, hinv⟩
      · exact hupd req.volumeId name vol w hfind hstep

/-- The staged flag of a registered volume may switch from false to true in
one RPC step only if the volume ends the step published. -/
theorem applyOp_staged_only_published (op : DriverOp) (s : DriverState) (n : String)
    (v v' : Volume) (hre : Reachable s)
    (hv : lookupVol s.volumes n = some v)
    (hv' : lookupVol (applyOp op s).volumes n = some v')
    (h0 : v.isStaged = false) (h1 : v'.isStaged = true) : v'.isPublished = true := by
  obtain ⟨hnd, _⟩ := reachable_registry_inv s hre
  have hsame : lookupVol s.volumes n = some v' → v'.isPublished = true := by
    intro hl
    rw [hv] at hl
    injection hl with hl
    rw [← hl] at h1
    rw [h1] at h0
    simp at h0
  have hcommon : ∀ (id name : String) (vol w : Volume),
      findVolByID s.volumes id = (name, some vol) → VolStep vol w →
      lookupVol (updateVol s.volumes name w) n = some v' → v'.isPublished = true := by
    intro id name vol w hfind hstep hl
    rw [lookupVol_updateVol] at hl
    by_cases hn : (n == name) = true
    · rw [if_pos hn] at hl
      have hlname : lookupVol s.volumes name = some vol :=
        lookupVol_of_mem_nodup s.volumes name vol hnd (findVolByID_mem s.volumes id name vol hfind)
      rw [hlname] at hl
      simp only [Option.isSome_some, if_true] at hl
      injection hl with hl
      have hveq : v = vol := by
        have hlv : lookupVol s.volumes name = some v := by
          rw [← show n = name by simpa using hn]
          exact hv
        rw [hlname] at hlv
        injection hlv with hlv
        exact hlv.symm
      rw [← hl] at h1 ⊢
      exact hstep.2 (hveq ▸ h0) h1
    · rw [if_neg hn] at hl
      exact hsame hl
  cases op with
  | create env req =>
    simp only [applyOp] at hv'
    rcases CreateVolume_volumes_cases env s.volumes req with hcase |
      ⟨record, hnone, _, _, _, hcase⟩ <;> rw [hcase] at hv'
    · exact hsame hv'
    · rw [lookupVol] at hv'
      by_cases hn : (req.name == n) = true
      · rw [if_pos hn] at hv'
        have : lookupVol s.volumes n = some v := hv
        rw [← show req.name = n by simpa using hn] at this
        rw [hnone] at this
        cases this
      · rw [if_neg hn] at hv'
        exact hsame hv'
  | delete env req =>
    simp only [applyOp] at hv'
    rcases DeleteVolume_volumes_cases env s.volumes req with hcase | ⟨name, hcase⟩ <;>
      rw [hcase] at hv'
    · exact hsame hv'
    · rw [lookupVol_removeVol] at hv'
      by_cases hn : (n == name) = true
      · rw [if_pos hn] at hv'; cases hv'
      · rw [if_neg hn] at hv'
        exact hsame hv'
  | ctrlPublish env req =>
    simp only [applyOp] at hv'
    rcases ControllerPublishVolume_volumes_cases env s.rsdNodeID s.volumes req with hcase |
      ⟨name, vol, w, hfind, hcase, hstep⟩ <;> rw [hcase] at hv'
    · exact hsame hv'
    · exact hcommon req.volumeId name vol w hfind hstep hv'
  | ctrlUnpublish env req =>
    simp only [applyOp] at hv'
    rcases ControllerUnpublishVolume_volumes_cases env s.rsdNodeID s.volumes req with hcase |
      ⟨name, vol, w, hfind, hcase, hstep⟩ <;> rw [hcase] at hv'
    · exact hsame hv'
    · exact hcommon req.volumeId name vol w hfind hstep hv'
  | nodeStage menv nenv req =>
    simp only [applyOp] at hv'
    rcases NodeStageVolume_volumes_cases menv nenv s.volumes req with hcase |
      ⟨name, vol, w, hfind, hcase, hstep⟩ <;> rw [hcase] at hv'
    · exact hsame hv'
    · exact hcommon req.volumeId name vol w hfind hstep hv'
  | nodeUnstage menv nenv req =>
    simp only [applyOp] at hv'
    rcases NodeUnstageVolume_volumes_cases menv nenv s.volumes req with hcase |
      ⟨name, vol, w, hfind, hcase, hstep⟩ <;> rw [hcase] at hv'
    · exact hsame hv'
    · exact hcommon req.volumeId name vol w hfind hstep hv'
  | nodePublish menv req =>
    simp only [applyOp] at hv'
    rcases NodePublishVolume_volumes_cases menv s.volumes req with hcase |
      ⟨name, vol, w, hfind, hcase, hstep⟩ <;> rw [hcase] at hv'
    · exact hsame hv'
    · exact hcommon req.volumeId name vol w hfind hstep hv'
  | nodeUnpublish menv req =>
    simp only [applyOp] at hv'
    rcases NodeUnpublishVolume_volumes_cases menv s.volumes req with hcase |
      ⟨name, vol, w, hfind, hcase, hstep⟩ <;> rw [hcase] at hv'
    · exact hsame hv'
    · exact hcommon req.volumeId name vol w hfind hstep hv'

/-! ## Claims C2 and C3 -/

/-- An endpoint resource with a usable RoCEv2 IPv4 transport and an NQN
identifier. -/
def epRoce : EndPoint :=
  { ipTransportDetails := [ { ipv4Address := "192.168.10.5", ipv6Address := "", port := 4420, transportProtocol := "RoCEv2" } ]
    identifiers := [ { durableNameFormat := "NQN", durableName := "nqn.2019-05.com.intel:subsys0" } ] }

/-- A computer-system endpoint carrying the host NQN. -/
def epHost : EndPoint :=
  { ipTransportDetails := []
    identifiers := [ { durableNameFormat := "nqn", durableName := "nqn.2019-05.com.intel:host0" } ] }

/-- An environment in which creating a volume succeeds with remote id 14. -/
def envCreate14 : RSDEnv :=
  { envFailAll with
    getVolumeCollection := .ok { odataID := "/redfish/v1/StorageServices/1/Volumes" }
    createRSDVolume := fun _ cap => .ok { id := "14", odataID := "/redfish/v1/StorageServices/1/Volumes/14", capacityBytes := cap } }

/-- An environment in which the attach, volume re-fetch and endpoint
resolution succeed but the computer-system fetch fails: a publish that
fails partway through node-identity resolution. -/
def envPublishFailAtSystem : RSDEnv :=
  { envCreate14 with
    getNode := fun nid => .ok { sampleNode with id := nid }
    getActionInfo := fun _ _ => .ok { id := "ai", parameters := [ { name := "Resource", required := true, dataType := "", allowableValues := [.obj [("@odata.id", "/redfish/v1/StorageServices/1/Volumes/14")]] } ] }
    postAction := fun _ _ => .ok ()
    getVolume := fun id => .ok { id := id, odataID := "/redfish/v1/StorageServices/1/Volumes/" ++ id, capacityBytes := 4194304 }
    getVolumeEndPoints := fun _ => .ok [epRoce]
    getComputerSystem := fun _ => .error "computer system unavailable" }

/-- The same environment with the computer-system steps succeeding: a
publish that commits. -/
def envPublishOk : RSDEnv :=
  { envPublishFailAtSystem with
    getComputerSystem := fun _ => .ok { name := "cs1", odataID := "/redfish/v1/Systems/s1" }
    getComputerSystemEndPoints := fun _ => .ok [epHost] }

/-- A concrete CreateVolume request. -/
def createReq14 : CreateVolumeRequest :=
  { name := "test", volumeCapabilities := [⟨.singleNodeWriter⟩], capacityRange := some ⟨4194304, 0⟩ }

/-- A concrete ControllerPublishVolume request. -/
def pubReq14 : ControllerPublishVolumeRequest :=
  { volumeId := "14", nodeId := "node1", volumeCapability := some ⟨some ⟨"ext4", []⟩⟩ }

/-- The driver state after creating volume `test` (remote id 14). -/
def stateAfterCreate : DriverState :=
  applyOp (.create envCreate14 createReq14) ⟨"node1", []⟩

/-- The driver state after a ControllerPublishVolume that failed at
node-identity resolution. -/
def stateAfterFailedPublish : DriverState :=
  applyOp (.ctrlPublish envPublishFailAtSystem pubReq14) stateAfterCreate

/-- The driver state after a successful ControllerPublishVolume. -/
def statePublished : DriverState :=
  applyOp (.ctrlPublish envPublishOk pubReq14) stateAfterCreate

/-- A mounter whose queries report unformatted/unmounted and whose actions
succeed. -/
def mounterAllOk : MounterEnv :=
  { isFormatted := fun _ => .ok false
    format := fun _ _ => .ok ()
    isMounted := fun _ _ => .ok false
    mount := fun _ _ _ _ => .ok ()
    unmount := fun _ => .ok () }

/-- A fabric connector that connects to `/dev/nvme0n1` and disconnects
successfully. -/
def nvmeAllOk : NVMeEnv :=
  { connect := fun _ _ _ _ _ _ => .ok "/dev/nvme0n1"
    disconnect := fun _ => .ok () }

/-- A concrete NodeStageVolume request. -/
def stageReq14 : NodeStageVolumeRequest :=
  { volumeId := "14", stagingTargetPath := "/mnt/stage", volumeCapability := some ⟨some ⟨"ext4", []⟩⟩ }

/-- The driver state after a successful NodeStageVolume on the published
volume. -/
def stateStaged : DriverState :=
  applyOp (.nodeStage mounterAllOk nvmeAllOk stageReq14) statePublished

/-- The registered volume record after the failed publish. -/
def volumeAfterFailedPublish : Volume :=
  (lookupVol stateAfterFailedPublish.volumes "test").getD (sampleVolume "" "" 0)

/-- The registered volume record after the successful publish. -/
def volumePublished : Volume :=
  (lookupVol statePublished.volumes "test").getD (sampleVolume "" "" 0)

/-- The registered volume record after staging. -/
def volumeStaged : Volume :=
  (lookupVol stateStaged.volumes "test").getD (sampleVolume "" "" 0)

/-- Counterexample to claim C2: in the reachable state produced by
CreateVolume followed by a ControllerPublishVolume that fails after
endpoint resolution (at the computer-system fetch), the registered
volume's endpoint is non-empty while `isPublished` is false, so the
endpoint half of the biconditional does not survive a partial publish
failure. -/
theorem endpoint_iff_published_counterexample :
    Reachable stateAfterFailedPublish ∧
    lookupVol stateAfterFailedPublish.volumes "test" = some volumeAfterFailedPublish ∧
    volumeAfterFailedPublish.endPoint ≠ none ∧
    volumeAfterFailedPublish.isPublished = false := by
  exact ⟨Reachable.step _ _ (Reachable.step _ _ (Reachable.init "node1")),
    by decide, by decide, by decide⟩

/-- Claim C2 (amended): in every reachable driver state, a registered
volume's remote node identity (`RSDNodeNQN`) is non-empty if and only if
its `isPublished` flag is true — also after a ControllerPublishVolume that
fails partway.  The endpoint half of the original claim is false: a
publish failing after endpoint resolution (and also a successful
unpublish, which never clears `EndPoint`) leaves the endpoint set on an
unpublished volume. -/
theorem rsdNodeNQN_iff_published (s : DriverState) (n : String) (v : Volume)
    (hre : Reachable s) (hv : lookupVol s.volumes n = some v) :
    (v.rsdNodeNQN ≠ "") ↔ v.isPublished = true :=
  (reachable_registry_inv s hre).2 (n, v) (lookupVol_mem s.volumes n v hv)

/-- Witness for claim C2: the amended invariant evaluated in the state
after the partially failed publish. -/
theorem rsdNodeNQN_iff_published_witness :
    (volumeAfterFailedPublish.rsdNodeNQN ≠ "") ↔
      volumeAfterFailedPublish.isPublished = true :=
  rsdNodeNQN_iff_published stateAfterFailedPublish "test" volumeAfterFailedPublish
    (Reachable.step _ _ (Reachable.step _ _ (Reachable.init "node1"))) (by decide)

/-- Claim C3: NodeStageVolume on a registered volume whose `isPublished`
flag is false fails with the not-published error, no fabric connect,
format or mount effect, and the volume record unchanged (in particular it
stays unstaged); and across every RPC step from a reachable state, a
registered volume's staged flag may switch from false to true only when
the volume ends the step published. -/
theorem nodeStage_requires_published :
    (∀ (menv : MounterEnv) (nenv : NVMeEnv) (v : Volume) (fsType sp : String)
        (opts : List String), v.isPublished = false →
      nodeStageVolume menv nenv v fsType sp opts =
        (.err ("nodeStageVolume: volume " ++ v.name ++ " is not published"), v, [])) ∧
    (∀ (op : DriverOp) (s : DriverState) (n : String) (v v' : Volume),
      Reachable s → lookupVol s.volumes n = some v →
      lookupVol (applyOp op s).volumes n = some v' →
      v.isStaged = false → v'.isStaged = true → v'.isPublished = true) := by
  constructor
  · intro menv nenv v fsType sp opts hpub
    unfold nodeStageVolume
    rw [if_pos (by simp [hpub])]
  · intro op s n v v' hre hv hv' h0 h1
    exact applyOp_staged_only_published op s n v v' hre hv hv' h0 h1

/-- Witness for claim C3: staging an unpublished volume fails and leaves
it untouched; staging the concrete published volume yields a staged record
that is indeed published. -/
theorem nodeStage_requires_published_witness :
    nodeStageVolume mounterAllOk nvmeAllOk (sampleVolume "test" "14" 4194304)
      "ext4" "/mnt/stage" [] =
      (.err ("nodeStageVolume: volume " ++ (sampleVolume "test" "14" 4194304).name ++ " is not published"),
        sampleVolume "test" "14" 4194304, []) ∧
    volumeStaged.isPublished = true :=
  ⟨nodeStage_requires_published.1 mounterAllOk nvmeAllOk
      (sampleVolume "test" "14" 4194304) "ext4" "/mnt/stage" [] (by decide),
    nodeStage_requires_published.2 (.nodeStage mounterAllOk nvmeAllOk stageReq14)
      statePublished "test" volumePublished volumeStaged
      (Reachable.step _ _ (Reachable.step _ _ (Reachable.init "node1")))
      (by decide) (by decide) (by decide) (by decide)⟩

/-! ## Claim C4 -/

/-- A volume that is staged but no longer published — reachable, since
`ControllerUnpublishVolume` performs no unstage cascade. -/
def stagedUnpublishedVolume : Volume :=
  { sampleVolume "test" "14" 4194304 with isStaged := true, device := "/dev/nvme0n1" }

/-- Counterexample to claim C4: NodeStageVolume on an already-staged volume
is not unconditionally a no-op success — on a staged volume whose
`isPublished` flag is false the call fails, because the code checks
`IsPublished` before the `IsStaged` idempotency short-circuit. -/
theorem nodeStage_idempotent_counterexample :
    stagedUnpublishedVolume.isStaged = true ∧
    (nodeStageVolume mounterAllOk nvmeAllOk stagedUnpublishedVolume "ext4" "/mnt/stage" []).1 =
      .err ("nodeStageVolume: volume test is not published") := by
  exact ⟨rfl, rfl⟩

/-- Claim C4 (amended): NodeStageVolume is idempotent and preserves
existing data — on an already-staged **published** volume it returns
success without invoking Connect, Format or Mount; on a not-yet-staged
published volume (whose connect and state queries succeed) it invokes
Format exactly when `IsFormatted` reports unformatted and Mount exactly
when `IsMounted` reports the pair unmounted. -/
theorem nodeStage_idempotent_and_data_safe (menv : MounterEnv) (nenv : NVMeEnv)
    (v : Volume) (fsType sp : String) (opts : List String) :
    (v.isPublished = true → v.isStaged = true →
      nodeStageVolume menv nenv v fsType sp opts = (.ok, v, [])) ∧
    (∀ ep dev fmted mtd,
      v.isPublished = true → v.isStaged = false → v.endPoint = some ep →
      nenv.connect ep.transportProtocol ep.ipAddress ep.ipAddressFamily
        (toString ep.ipPort) ep.nqn v.rsdNodeNQN = .ok dev →
      menv.isFormatted dev = .ok fmted →
      (fmted = false → menv.format dev fsType = .ok ()) →
      menv.isMounted dev sp = .ok mtd →
      (mtd = false → menv.mount dev sp fsType opts = .ok ()) →
      nodeStageVolume menv nenv v fsType sp opts =
        (.ok, { v with device := dev, isStaged := true },
          .connect ep.transportProtocol ep.ipAddress ep.ipAddressFamily
            (toString ep.ipPort) ep.nqn v.rsdNodeNQN ::
          ((if fmted then [] else [.format dev fsType]) ++
           (if mtd then [] else [.mount dev sp fsType opts]))) ∧
      ((Effect.format dev fsType ∈ (nodeStageVolume menv nenv v fsType sp opts).2.2) ↔
        fmted = false) ∧
      ((Effect.mount dev sp fsType opts ∈ (nodeStageVolume menv nenv v fsType sp opts).2.2) ↔
        mtd = false)) := by
  constructor
  · intro hpub hstg
    unfold nodeStageVolume
    rw [if_neg (by simp [hpub]), if_pos hstg]
  · intro ep dev fmted mtd hpub hstg hep hconn hfmt hfmtok hmnt hmntok
    have heq : nodeStageVolume menv nenv v fsType sp opts =
        (.ok, { v with device := dev, isStaged := true },
          .connect ep.transportProtocol ep.ipAddress ep.ipAddressFamily
            (toString ep.ipPort) ep.nqn v.rsdNodeNQN ::
          ((if fmted then [] else [.format dev fsType]) ++
           (if mtd then [] else [.mount dev sp fsType opts]))) := by
      unfold nodeStageVolume
      rw [if_neg (by simp [hpub])]
      rw [if_neg (by simp [hstg])]
      cases fmted <;> cases mtd <;>
        simp_all [hep, hconn, hfmt, hmnt, hfmtok, hmntok]
    refine ⟨heq, ?_, ?_⟩ <;> rw [heq] <;> cases fmted <;> cases mtd <;> simp

/-- Witness for claim C4: the no-op branch on a staged published volume,
and the format-and-mount branch on the concrete published volume. -/
theorem nodeStage_idempotent_and_data_safe_witness :
    nodeStageVolume mounterAllOk nvmeAllOk
      { stagedUnpublishedVolume with isPublished := true } "ext4" "/mnt/stage" [] =
      (.ok, { stagedUnpublishedVolume with isPublished := true }, []) :=
  (nodeStage_idempotent_and_data_safe mounterAllOk nvmeAllOk
    { stagedUnpublishedVolume with isPublished := true } "ext4" "/mnt/stage" []).1 rfl rfl

/-! ## Claim C5 -/

/-- Claim C5: NodeUnstageVolume on an unstaged volume is a no-op success;
on a staged volume it unmounts the staging path only when still mounted,
then disconnects; the device path and staged flag are cleared exactly when
disconnect succeeds; on disconnect failure the volume stays staged with
its device path intact, and a retry under a mounter that now reports the
path unmounted re-attempts only the disconnect, not the unmount. -/
theorem nodeUnstage_disconnect_gated (menv menv2 : MounterEnv) (nenv nenv2 : NVMeEnv)
    (v : Volume) (sp : String) :
    (v.isStaged = false → nodeUnstageVolume menv nenv v sp = (.ok, v, [])) ∧
    (v.isStaged = true →
      (∀ e, menv.isMounted "" sp = .error e →
        nodeUnstageVolume menv nenv v sp = (.err e, v, [])) ∧
      (menv.isMounted "" sp = .ok true → menv.unmount sp = .ok () →
        (nenv.disconnect v.device = .ok () →
          nodeUnstageVolume menv nenv v sp =
            (.ok, { v with device := "", isStaged := false },
              [.unmount sp, .disconnect v.device])) ∧
        (∀ e, nenv.disconnect v.device = .error e →
          nodeUnstageVolume menv nenv v sp =
            (.err e, v, [.unmount sp, .disconnect v.device]) ∧
          (menv2.isMounted "" sp = .ok false → nenv2.disconnect v.device = .ok () →
            nodeUnstageVolume menv2 nenv2 (nodeUnstageVolume menv nenv v sp).2.1 sp =
              (.ok, { v with device := "", isStaged := false },
                [.disconnect v.device])))) ∧
      (menv.isMounted "" sp = .ok false →
        (nenv.disconnect v.device = .ok () →
          nodeUnstageVolume menv nenv v sp =
            (.ok, { v with device := "", isStaged := false }, [.disconnect v.device])) ∧
        (∀ e, nenv.disconnect v.device = .error e →
          nodeUnstageVolume menv nenv v sp = (.err e, v, [.disconnect v.device])))) := by
  have hstep : ∀ (menv' : MounterEnv) (nenv' : NVMeEnv) (mtd : Bool),
      v.isStaged = true → menv'.isMounted "" sp = .ok mtd →
      (mtd = true → menv'.unmount sp = .ok ()) →
      (∀ u, nenv'.disconnect v.device = .ok u →
        nodeUnstageVolume menv' nenv' v sp =
          (.ok, { v with device := "", isStaged := false },
            (if mtd then [.unmount sp] else []) ++ [.disconnect v.device])) ∧
      (∀ e, nenv'.disconnect v.device = .error e →
        nodeUnstageVolume menv' nenv' v sp =
          (.err e, v, (if mtd then [.unmount sp] else []) ++ [.disconnect v.device])) := by
    intro menv' nenv' mtd hstg hmnt hum
    constructor <;> intro x hdis <;>
      (unfold nodeUnstageVolume
       rw [if_neg (by simp [hstg])]
       cases mtd <;> simp_all [hmnt, hdis])
  refine ⟨?_, fun hstg => ⟨?_, fun hmnt hum => ⟨?_, fun e hdis => ⟨?_, fun hmnt2 hdis2 => ?_⟩⟩,
    fun hmnt => ⟨?_, ?_⟩⟩⟩
  · intro hstg
    unfold nodeUnstageVolume
    rw [if_pos (by simp [hstg])]
  · intro e hmerr
    unfold nodeUnstageVolume
    rw [if_neg (by simp [hstg])]
    simp [hmerr]
  · intro hdis
    simpa using (hstep menv nenv true hstg hmnt (fun _ => hum)).1 () hdis
  · simpa using (hstep menv nenv true hstg hmnt (fun _ => hum)).2 e hdis
  · have hafter : (nodeUnstageVolume menv nenv v sp).2.1 = v := by
      rw [(hstep menv nenv true hstg hmnt (fun _ => hum)).2 e hdis]
    rw [hafter]
    simpa using (hstep menv2 nenv2 false hstg hmnt2 (by simp)).1 () hdis2
  · intro hdis
    simpa using (hstep menv nenv false hstg hmnt (by simp)).1 () hdis
  · intro e hdis
    simpa using (hstep menv nenv false hstg hmnt (by simp)).2 e hdis

/-- A mounter reporting the staging path still mounted, with successful
unmount. -/
def mounterStillMounted : MounterEnv :=
  { mounterAllOk with isMounted := fun _ _ => .ok true }

/-- A fabric connector whose disconnect fails. -/
def nvmeDisconnectFails : NVMeEnv :=
  { nvmeAllOk with disconnect := fun _ => .error "Disconnect command failed" }

/-- Witness for claim C5: unstaging the concrete staged volume with a
failing disconnect keeps it staged with the device intact after the
unmount, and the retry with the path already unmounted only disconnects. -/
theorem nodeUnstage_disconnect_gated_witness :
    nodeUnstageVolume mounterStillMounted nvmeDisconnectFails
      { stagedUnpublishedVolume with isPublished := true } "/mnt/stage" =
      (.err "Disconnect command failed", { stagedUnpublishedVolume with isPublished := true },
        [.unmount "/mnt/stage", .disconnect "/dev/nvme0n1"]) ∧
    nodeUnstageVolume mounterAllOk nvmeAllOk
      (nodeUnstageVolume mounterStillMounted nvmeDisconnectFails
        { stagedUnpublishedVolume with isPublished := true } "/mnt/stage").2.1 "/mnt/stage" =
      (.ok, { { stagedUnpublishedVolume with isPublished := true } with
          device := "", isStaged := false },
        [.disconnect "/dev/nvme0n1"]) := by
  have h := ((((nodeUnstage_disconnect_gated mounterStillMounted mounterAllOk
    nvmeDisconnectFails nvmeAllOk
    { stagedUnpublishedVolume with isPublished := true } "/mnt/stage").2 rfl).2.1
    rfl rfl).2 "Disconnect command failed" rfl)
  exact ⟨h.1, h.2 rfl rfl⟩

/-! ## Claim C7 -/

theorem toDigitsCore_succ (b f n : Nat) (ds : List Char) :
    Nat.toDigitsCore b (f + 1) n ds =
      if n / b = 0 then (n % b).digitChar :: ds
      else Nat.toDigitsCore b f (n / b) ((n % b).digitChar :: ds) := rfl

theorem toDigitsCore_length_le (b : Nat) :
    ∀ (fuel n : Nat) (ds : List Char), ds.length ≤ (Nat.toDigitsCore b fuel n ds).length := by
  intro fuel
  induction fuel with
  | zero => intro n ds; exact Nat.le_refl _
  | succ f ih =>
    intro n ds
    rw [toDigitsCore_succ]
    by_cases h : n / b = 0
    · rw [if_pos h]; simp
    · rw [if_neg h]
      calc ds.length ≤ ((n % b).digitChar :: ds).length := by simp
        _ ≤ _ := ih (n / b) ((n % b).digitChar :: ds)

theorem toDigits_ne_nil (b n : Nat) : Nat.toDigits b n ≠ [] := by
  unfold Nat.toDigits
  rw [toDigitsCore_succ]
  by_cases h : n / b = 0
  · rw [if_pos h]; simp
  · rw [if_neg h]
    intro hnil
    have hle := toDigitsCore_length_le b n (n / b) [(n % b).digitChar]
    rw [hnil] at hle
    simp at hle

theorem natRepr_ne_empty (n : Nat) : Nat.repr n ≠ "" := by
  intro h
  have hdata := congrArg String.data h
  simp only [Nat.repr, List.asString] at hdata
  exact toDigits_ne_nil 10 n hdata

theorem intToString_pos_ne_empty (m : Int) (h : 0 < m) : toString m ≠ "" := by
  cases m with
  | ofNat k => exact natRepr_ne_empty k
  | negSucc k =>
    have := Int.negSucc_lt_zero k
    omega

theorem collectEntries_ge (st n : Int) :
    ∀ (vols : List CSIVolume) (i : Int) (acc : List CSIVolume),
      st ≤ i → acc.length < n.toNat →
      collectEntries st n vols i acc = acc.reverse ++ vols.take (n.toNat - acc.length) := by
  intro vols
  induction vols with
  | nil => intro i acc _ _; simp [collectEntries]
  | cons v rest ih =>
    intro i acc hi hlen
    rw [collectEntries, if_pos hi]
    by_cases hbreak : ((v :: acc).length = n.toNat ∧ 0 ≤ n)
    · rw [if_pos hbreak]
      have htake : n.toNat - acc.length = 1 := by
        have := hbreak.1
        simp at this
        omega
      rw [htake]
      simp
    · rw [if_neg hbreak]
      have hlen' : (v :: acc).length < n.toNat := by
        have hpos : 0 < n := by
          by_contra hneg
          have : n.toNat = 0 := by omega
          omega
        simp only [List.length_cons]
        rcases Nat.lt_or_ge (acc.length + 1) n.toNat with h | h
        · exact h
        · exfalso
          exact hbreak ⟨by simp; omega, by omega⟩
      rw [ih (i + 1) (v :: acc) (by omega) hlen']
      have htake : n.toNat - acc.length = (n.toNat - (v :: acc).length) + 1 := by
        simp only [List.length_cons]
        omega
      rw [htake, List.take_succ_cons]
      simp

theorem collectEntries_skip (st n : Int) :
    ∀ (vols : List CSIVolume) (i : Int) (acc : List CSIVolume),
      (vols.length : Int) + i ≤ st →
      collectEntries st n vols i acc = acc.reverse := by
  intro vols
  induction vols with
  | nil => intro i acc _; simp [collectEntries]
  | cons v rest ih =>
    intro i acc hle
    simp only [List.length_cons] at hle
    rw [collectEntries, if_neg (by push_cast at hle ⊢; omega)]
    exact ih (i + 1) acc (by push_cast at hle ⊢; omega)

theorem collectEntries_lt (st n : Int) (hn : 0 < n.toNat) :
    ∀ (vols : List CSIVolume) (i : Int), 0 ≤ i → i ≤ st →
      collectEntries st n vols i [] = (vols.drop (st - i).toNat).take n.toNat := by
  intro vols
  induction vols with
  | nil => intro i _ _; simp [collectEntries]
  | cons v rest ih =>
    intro i h0 hi
    by_cases hge : st ≤ i
    · have hzero : (st - i).toNat = 0 := by omega
      rw [hzero, List.drop_zero]
      exact collectEntries_ge st n (v :: rest) i [] hge (by simpa using hn)
    · rw [collectEntries, if_neg (by omega)]
      rw [ih (i + 1) (by omega) (by omega)]
      have hdrop : (st - i).toNat = (st - (i + 1)).toNat + 1 := by omega
      rw [hdrop, List.drop_succ_cons]

/-- The page returned by a successful `ListVolumes` is a contiguous slice
of the sorted volume list. -/
theorem ListVolumes_page (volumes : Registry) (st maxE : Int)
    (h0 : 0 ≤ st) (hst : st ≤ (listCSIVolumes volumes).length) :
    ListVolumes volumes ⟨st, maxE⟩ =
      .ok (((listCSIVolumes volumes).drop st.toNat).take
            (if 0 < maxE ∧ maxE < (listCSIVolumes volumes).length - st
             then maxE.toNat
             else (((listCSIVolumes volumes).length : Int) - st).toNat),
        if 0 < maxE ∧ maxE < (listCSIVolumes volumes).length - st
        then toString (st + maxE) else "") := by
  unfold ListVolumes
  dsimp only
  rw [if_neg (by omega)]
  set vols := listCSIVolumes volumes with hvols
  set numVols : Int := (vols.length : Int) with hN
  by_cases htr : 0 < maxE ∧ maxE < numVols - st
  · repeat rw [if_pos htr]
    rw [collectEntries_lt st maxE (by have := htr.1; omega) vols 0 (by omega) h0]
    simp
  · repeat rw [if_neg htr]
    by_cases hz : st = numVols
    · rw [collectEntries_skip st (numVols - st) vols 0 [] (by omega)]
      have hzero : (numVols - st).toNat = 0 := by omega
      rw [hzero]
      simp
    · rw [collectEntries_lt st (numVols - st) (by omega) vols 0 (by omega) h0]
      simp

/-- Claim C7: ListVolumes returns the registry contents sorted by volume
name (the page source is the registry read in sorted key order, the sorted
keys being a sorted permutation of the registry's keys); a startingToken
greater than the registry size fails with `Aborted`; when maxEntries is
positive and smaller than the number of remaining entries, the page holds
exactly maxEntries entries with the non-empty continuation token
`Itoa(startingToken + maxEntries)`, and the call resuming with that token
returns exactly the rest, so the two pages concatenate to everything from
startingToken on; when the remaining entries fit, the token is empty and
the page is everything from startingToken on. -/
theorem listVolumes_sorted_pagination (volumes : Registry) (st maxE : Int) :
    (listCSIVolumes volumes =
        (@List.insertionSort String (· ≤ ·) stringLeDec (volumes.map Prod.fst)).filterMap
          (fun k => (lookupVol volumes k).map Volume.csiVolume) ∧
      List.Sorted (· ≤ ·)
        (@List.insertionSort String (· ≤ ·) stringLeDec (volumes.map Prod.fst)) ∧
      (@List.insertionSort String (· ≤ ·) stringLeDec (volumes.map Prod.fst)).Perm
        (volumes.map Prod.fst)) ∧
    (st > (listCSIVolumes volumes).length →
      ListVolumes volumes ⟨st, maxE⟩ =
        .err ⟨.aborted, "startingToken " ++ toString st ++
          " is greater than amount of volumes " ++
          toString ((listCSIVolumes volumes).length : Int)⟩) ∧
    (0 ≤ st → st ≤ (listCSIVolumes volumes).length →
      0 < maxE → maxE < (listCSIVolumes volumes).length - st →
      ListVolumes volumes ⟨st, maxE⟩ =
        .ok (((listCSIVolumes volumes).drop st.toNat).take maxE.toNat, toString (st + maxE)) ∧
      (((listCSIVolumes volumes).drop st.toNat).take maxE.toNat).length = maxE.toNat ∧
      toString (st + maxE) ≠ "" ∧
      ListVolumes volumes ⟨st + maxE, 0⟩ =
        .ok ((listCSIVolumes volumes).drop (st + maxE).toNat, "") ∧
      ((listCSIVolumes volumes).drop st.toNat).take maxE.toNat ++
          (listCSIVolumes volumes).drop (st + maxE).toNat =
        (listCSIVolumes volumes).drop st.toNat) ∧
    (0 ≤ st → st ≤ (listCSIVolumes volumes).length →
      (maxE ≤ 0 ∨ ((listCSIVolumes volumes).length : Int) - st ≤ maxE) →
      ListVolumes volumes ⟨st, maxE⟩ = .ok ((listCSIVolumes volumes).drop st.toNat, "")) := by
  refine ⟨⟨rfl, @List.sorted_insertionSort String (· ≤ ·) stringLeDec _ _ _,
    @List.perm_insertionSort String (· ≤ ·) stringLeDec _⟩, ?_, ?_, ?_⟩
  · intro hgt
    unfold ListVolumes
    dsimp only
    rw [if_pos (by omega)]
  · intro h0 h1 h2 h3
    have hp := ListVolumes_page volumes st maxE h0 h1
    rw [if_pos ⟨h2, h3⟩, if_pos ⟨h2, h3⟩] at hp
    have hfull : (listCSIVolumes volumes).length ≤ ((st + maxE) : Int).toNat +
        (((listCSIVolumes volumes).length : Int) - (st + maxE)).toNat := by omega
    have hp2 := ListVolumes_page volumes (st + maxE) 0 (by omega) (by omega)
    rw [if_neg (by omega), if_neg (by omega)] at hp2
    have htake2 : ((listCSIVolumes volumes).drop ((st + maxE) : Int).toNat).take
        ((((listCSIVolumes volumes).length : Int) - (st + maxE)).toNat) =
        (listCSIVolumes volumes).drop ((st + maxE) : Int).toNat := by
      apply List.take_of_length_le
      rw [List.length_drop]
      omega
    rw [htake2] at hp2
    refine ⟨hp, ?_, intToString_pos_ne_empty (st + maxE) (by omega), hp2, ?_⟩
    · rw [List.length_take, List.length_drop]
      omega
    · have hdd : (listCSIVolumes volumes).drop ((st + maxE) : Int).toNat =
          ((listCSIVolumes volumes).drop st.toNat).drop maxE.toNat := by
        rw [List.drop_drop]
        congr 1
        omega
      rw [hdd, List.take_append_drop]
  · intro h0 h1 hfit
    have hp := ListVolumes_page volumes st maxE h0 h1
    rw [if_neg (by omega), if_neg (by omega)] at hp
    have htake : ((listCSIVolumes volumes).drop st.toNat).take
        ((((listCSIVolumes volumes).length : Int) - st).toNat) =
        (listCSIVolumes volumes).drop st.toNat := by
      apply List.take_of_length_le
      rw [List.length_drop]
      omega
    rw [htake] at hp
    exact hp

/-- A three-volume registry in non-sorted insertion order, used as
concrete pagination input. -/
def paginationRegistry : Registry :=
  [("b", sampleVolume "b" "2" 1048576), ("a", sampleVolume "a" "1" 1048576),
    ("c", sampleVolume "c" "3" 1048576)]

/-- Witness for claim C7: paging the three-volume registry with
maxEntries 2 returns the first two sorted entries with token "2", and the
call resuming at token 2 returns the remaining entry with an empty
token. -/
theorem listVolumes_sorted_pagination_witness :
    ListVolumes paginationRegistry ⟨0, 2⟩ =
      .ok (((listCSIVolumes paginationRegistry).drop (0 : Int).toNat).take (2 : Int).toNat,
        toString ((0 : Int) + 2)) ∧
    ListVolumes paginationRegistry ⟨(0 : Int) + 2, 0⟩ =
      .ok ((listCSIVolumes paginationRegistry).drop ((0 : Int) + 2).toNat, "") :=
  have h := (listVolumes_sorted_pagination paginationRegistry 0 2).2.2.1 (by decide)
    (by decide) (by decide) (by decide)
  ⟨h.1, h.2.2.2.1⟩

/-- Claim C9 (the target-path set is Modelled from the spec: the driver.go
revision declaring `TargetPaths` is missing from the snapshot):
NodePublishVolume on a registered volume bind-mounts the staging path to
the target path with `bind` (and `ro` when read-only is requested)
appended to the capability's mount flags only if the target is not
already mounted — when the mounter reports the target mounted the call
succeeds without issuing a mount — and in either success case records the
target path in the volume's target-path set, so that a subsequent
NodeGetVolumeStats on that target path reports the volume's remote
capacity instead of failing NotFound. -/
theorem nodePublish_bind_and_records (menv : MounterEnv) (volumes : Registry)
    (req : NodePublishVolumeRequest) (cap : NodeCapability) (mnt : MountVolume)
    (name : String) (vol : Volume) (rv : RSDVolume)
    (hnd : (volumes.map Prod.fst).Nodup)
    (hvid : req.volumeId ≠ "") (hsp : req.stagingTargetPath ≠ "")
    (htp : req.targetPath ≠ "")
    (hcap : req.volumeCapability = some cap) (hmnt : cap.mount = some mnt)
    (hfind : findVolByID volumes req.volumeId = (name, some vol)) (hname : name ≠ "")
    (hrv : vol.rsdVolume = some rv) :
    (menv.isMounted req.stagingTargetPath req.targetPath = .ok true →
      ∃ w, NodePublishVolume menv volumes req = (.ok (), updateVol volumes name w, []) ∧
        w.targetPaths.contains req.targetPath = true ∧
        NodeGetVolumeStats (updateVol volumes name w) ⟨req.volumeId, req.targetPath⟩ =
          .ok rv.capacityBytes) ∧
    (menv.isMounted req.stagingTargetPath req.targetPath = .ok false →
      menv.mount req.stagingTargetPath req.targetPath (getFsType mnt.fsType)
          (mnt.mountFlags ++ ["bind"] ++ (if req.readonly then ["ro"] else [])) = .ok () →
      ∃ w, NodePublishVolume menv volumes req =
          (.ok (), updateVol volumes name w,
            [.mount req.stagingTargetPath req.targetPath (getFsType mnt.fsType)
              (mnt.mountFlags ++ ["bind"] ++ (if req.readonly then ["ro"] else []))]) ∧
        w.targetPaths.contains req.targetPath = true ∧
        NodeGetVolumeStats (updateVol volumes name w) ⟨req.volumeId, req.targetPath⟩ =
          .ok rv.capacityBytes) := by
  set w : Volume :=
    { vol with targetPaths :=
        if vol.targetPaths.contains req.targetPath then vol.targetPaths
        else req.targetPath :: vol.targetPaths } with hw
  have hwc : w.targetPaths.contains req.targetPath = true := by
    rw [hw]
    dsimp only
    by_cases h : vol.targetPaths.contains req.targetPath = true
    · rw [if_pos h]; exact h
    · rw [if_neg h]; simp
  have hfind' : findVolByID (updateVol volumes name w) req.volumeId = (name, some w) :=
    findVolByID_updateVol volumes req.volumeId name vol w hnd hfind rfl
  have hstats : NodeGetVolumeStats (updateVol volumes name w) ⟨req.volumeId, req.targetPath⟩ =
      .ok rv.capacityBytes := by
    unfold NodeGetVolumeStats
    dsimp only
    rw [if_neg (by simp [hvid]), if_neg (by simp [htp])]
    simp only [hfind']
    rw [hwc]
    simp only [Bool.not_true, Bool.false_and, Bool.false_eq_true, if_false]
    simp only [hrv]
  have hcoreA : menv.isMounted req.stagingTargetPath req.targetPath = .ok true →
      ∀ fsType opts,
      nodePublishVolume menv vol fsType req.stagingTargetPath req.targetPath opts =
        (.ok, w, []) := by
    intro hm fsType opts
    unfold nodePublishVolume
    dsimp only
    simp only [hm]
    rw [if_neg (by simp)]
  have hcoreB : menv.isMounted req.stagingTargetPath req.targetPath = .ok false →
      ∀ fsType opts,
      menv.mount req.stagingTargetPath req.targetPath fsType opts = .ok () →
      nodePublishVolume menv vol fsType req.stagingTargetPath req.targetPath opts =
        (.ok, w, [.mount req.stagingTargetPath req.targetPath fsType opts]) := by
    intro hm fsType opts hmount
    unfold nodePublishVolume
    dsimp only
    simp only [hm]
    rw [if_pos (by simp)]
    simp only [hmount]
  have hrpc : ∀ r, nodePublishVolume menv vol (getFsType mnt.fsType) req.stagingTargetPath
        req.targetPath (mnt.mountFlags ++ ["bind"] ++ (if req.readonly then ["ro"] else [])) =
        (.ok, w, r) →
      NodePublishVolume menv volumes req = (.ok (), updateVol volumes name w, r) := by
    intro r hcore
    unfold NodePublishVolume
    rw [if_neg (by simp [hvid]), if_neg (by simp [hsp]), if_neg (by simp [htp])]
    simp only [hcap, hmnt]
    simp only [hfind]
    rw [if_neg (by simp [hname])]
    simp only [hcore]
  exact ⟨fun hm => ⟨w, hrpc [] (hcoreA hm _ _), hwc, hstats⟩,
    fun hm hmount => ⟨w, hrpc _ (hcoreB hm _ _ hmount), hwc, hstats⟩⟩

/-- Witness for claim C9: on a one-volume registry with the all-succeeding
mounter (target not yet mounted), a read-only NodePublishVolume issues
exactly one bind mount with options `noatime, bind, ro`, records the
target path, and NodeGetVolumeStats on that target path then reports the
volume's capacity. -/
theorem nodePublish_bind_and_records_witness :
    ∃ w, NodePublishVolume mounterAllOk [("v14", sampleVolume "v14" "vol-14" 1048576)]
        ⟨"vol-14", "/mnt/stage", "/mnt/target", some ⟨some ⟨"", ["noatime"]⟩⟩, true⟩ =
        (.ok (), updateVol [("v14", sampleVolume "v14" "vol-14" 1048576)] "v14" w,
          [.mount "/mnt/stage" "/mnt/target" "ext4" ["noatime", "bind", "ro"]]) ∧
      w.targetPaths.contains "/mnt/target" = true ∧
      NodeGetVolumeStats (updateVol [("v14", sampleVolume "v14" "vol-14" 1048576)] "v14" w)
        ⟨"vol-14", "/mnt/target"⟩ = .ok 1048576 :=
  (nodePublish_bind_and_records mounterAllOk [("v14", sampleVolume "v14" "vol-14" 1048576)]
      ⟨"vol-14", "/mnt/stage", "/mnt/target", some ⟨some ⟨"", ["noatime"]⟩⟩, true⟩
      ⟨some ⟨"", ["noatime"]⟩⟩ ⟨"", ["noatime"]⟩ "v14" (sampleVolume "v14" "vol-14" 1048576)
      { id := "vol-14", odataID := "/redfish/v1/StorageServices/1/Volumes/vol-14",
        capacityBytes := 1048576 }
      (by decide) (by decide) (by decide) (by decide) rfl rfl rfl (by decide) rfl).2 rfl rfl

end CsiRsd
